import Mathlib

/-!
Verification development for the Arkanoid game core
(`arkanoid_impl.h` / the implementation translation unit).

The C++ implementation is shallowly embedded: `float` becomes `ℚ`
(exact rational arithmetic), `int` becomes `ℤ` (C++ integer division
truncates toward zero, hence `Int.tdiv` / `Int.tmod`), and the few
operations whose code lives outside the visible sources (the `Vect`
vector helpers from the framework header, the C++ standard library
random engines and `sin`/`cos`/`sqrt`) are supplied through an
explicit `Oracle` of uninterpreted functions, so every theorem below
is quantified over all possible behaviours of those externals.
-/

namespace Arkanoid

/-- Modelled from the spec: 2D vector of world coordinates (framework
type `Vect`, not part of the visible sources; the spec calls for plain
componentwise vector arithmetic). -/
structure Vect where
  x : ℚ
  y : ℚ
  deriving DecidableEq, Repr

instance : Add Vect := ⟨fun a b => ⟨a.x + b.x, a.y + b.y⟩⟩

instance : Sub Vect := ⟨fun a b => ⟨a.x - b.x, a.y - b.y⟩⟩

/-- Modelled from the spec: scalar scaling of a `Vect` (componentwise). -/
instance : HMul Vect ℚ Vect := ⟨fun v k => ⟨v.x * k, v.y * k⟩⟩

/-- Modelled from the spec: squared vector length (`Vect::LengthSquared`),
used by the circle-vs-rectangle test of the spec via squared distances. -/
def Vect.lenSq (v : Vect) : ℚ := v.x * v.x + v.y * v.y

/-- Modelled from the spec: axis-aligned rectangle (framework type `Rect`). -/
structure Rect where
  pos : Vect
  size : Vect
  deriving DecidableEq, Repr

/-- Clamp a rational between min `a` and max `b` (helper `clampf`). -/
def clampf (v a b : ℚ) : ℚ := max a (min b v)

/-- Sign function (helper `sgn`). -/
def sgn (v : ℚ) : ℚ := if v < 0 then -1 else 1

/-- Compute center of rectangle (helper `rect_center`). -/
def rect_center (r : Rect) : Vect :=
  ⟨r.pos.x + r.size.x * 0.5, r.pos.y + r.size.y * 0.5⟩

/-- Create rectangle from x, y, width, height (helper `make_rect_xywh`). -/
def make_rect_xywh (x y w h : ℚ) : Rect :=
  ⟨⟨x, y⟩, ⟨w, h⟩⟩

/-- Packed RGBA color, modelled as its four channels (`ImU32` built by
`IM_COL32`; channel extraction via shift-and-mask becomes field access). -/
structure Color where
  r : ℤ
  g : ℤ
  b : ℤ
  a : ℤ
  deriving DecidableEq, Repr

/-- The `IM_COL32` constructor. -/
def IM_COL32 (r g b a : ℤ) : Color := ⟨r, g, b, a⟩

/-- Game states (`ArkanoidImpl::GameState`). -/
inductive GameState where
  | Playing
  | Win
  | Lose
  deriving DecidableEq, Repr

/-- Types of bonuses / powerups (`ArkanoidImpl::BonusType`). -/
inductive BonusType where
  | SpeedUp
  | EnlargePaddle
  | ExtraLife
  | Pierce
  | SlowMo
  | Points
  | Magnet
  | ScoreMult
  | NukeRow
  deriving DecidableEq, Repr

/-- Brick representation (`ArkanoidImpl::Brick`). -/
structure Brick where
  rect_world : Rect
  alive : Bool
  score : ℤ
  bonus : Bool
  color : Color
  hit_points : ℤ
  base_color : Color
  deriving DecidableEq, Repr

/-- Falling bonus item (`ArkanoidImpl::Bonus`). -/
structure Bonus where
  rect_world : Rect
  type : BonusType
  vel : Vect
  alive : Bool
  color : Color
  points : ℤ
  glow : ℚ
  deriving DecidableEq, Repr

/-- Small particle for destruction visuals (`ArkanoidImpl::Particle`). -/
structure Particle where
  pos : Vect
  vel : Vect
  life : ℚ
  size : ℚ
  color : Color
  deriving DecidableEq, Repr

/-- Modelled from the spec: the settings struct (`ArkanoidSettings`,
framework header not among the visible sources). The spec lists its
recognized fields: world size, ball radius, ball speed, paddle width,
brick column/row counts and paddings. -/
structure ArkanoidSettings where
  world_size : Vect
  ball_radius : ℚ
  ball_speed : ℚ
  carriage_width : ℚ
  bricks_columns_count : ℤ
  bricks_rows_count : ℤ
  bricks_columns_padding : ℚ
  bricks_rows_padding : ℚ
  deriving DecidableEq, Repr

/-- Modelled from the spec: the static min/max constants of
`ArkanoidSettings` (values live in the framework header; the spec only
says each tunable is clamped to a documented min/max range), kept as
parameters. -/
structure Limits where
  ball_speed_min : ℚ
  ball_speed_max : ℚ
  carriage_width_min : ℚ
  bricks_columns_min : ℚ
  bricks_columns_max : ℚ
  bricks_rows_min : ℚ
  bricks_rows_max : ℚ
  bricks_columns_padding_min : ℚ
  bricks_columns_padding_max : ℚ
  bricks_rows_padding_min : ℚ
  bricks_rows_padding_max : ℚ
  deriving DecidableEq, Repr

/-- The abstract per-frame input snapshot: the boolean key states the
update loop reads from `ImGuiIO::KeysDown`, plus the display size used
for the world-to-screen scale. -/
structure Input where
  keyR : Bool
  keyA : Bool
  keyD : Bool
  key1 : Bool
  key2 : Bool
  key3 : Bool
  keyC : Bool
  keyX : Bool
  keyT : Bool
  keyQ : Bool
  keyY : Bool
  keyE : Bool
  keyN : Bool
  display : Vect
  deriving DecidableEq, Repr

/-- Uninterpreted externals: square root, sine and cosine on floats,
the `rand()` stream (indexed by number of calls made so far), the
`mt19937(1337)` level-generation draws (per brick index: the
`uniform_real_distribution` value and the `hpDist` value), the bonus
choice `uniform_int_distribution(0,6)(mt19937(seed))` as a function of
its seed, and the particle-attribute draws (per seed and particle
index: angle, speed, raw life draw, size). Every theorem is stated for
all oracles, so nothing is assumed about these externals. -/
structure Oracle where
  sqrt : ℚ → ℚ
  sin : ℚ → ℚ
  cos : ℚ → ℚ
  rand : ℕ → ℕ
  unif01 : ℕ → ℚ
  hp_draw : ℕ → ℕ
  bonus_choice : ℚ → Fin 7
  particle_draw : ℚ → ℕ → ℚ × ℚ × ℕ × ℚ

/-- Modelled from the spec: vector length `Vect::Length` =
`sqrt(LengthSquared)`, with the float square root taken from the oracle. -/
def Vect.length (O : Oracle) (v : Vect) : ℚ := O.sqrt v.lenSq

/-- Modelled from the spec: `Vect::Normalized` = `v / Length(v)`. -/
def Vect.normalized (O : Oracle) (v : Vect) : Vect :=
  let len := v.length O
  ⟨v.x / len, v.y / len⟩

/-- A debug hit record (`ArkanoidDebugData::Hit`): screen position and
normal. -/
structure Hit where
  screen_pos : Vect
  normal : Vect
  deriving DecidableEq, Repr

/-- The full mutable state of `ArkanoidImpl` (its private fields, in
header order), plus the `static float freeze_timer` local of
`integrate_ball` and the position in the `rand()` stream. -/
structure Ark where
  settings : ArkanoidSettings
  world_size : Vect
  screen_scale : Vect
  bricks : List Brick
  bricks_cols : ℤ
  bricks_rows : ℤ
  brick_size : Vect
  bricks_origin : Vect
  destroyed_bricks_count : ℤ
  bonuses : List Bonus
  particles : List Particle
  carriage_world : Rect
  carriage_height : ℚ
  carriage_speed : ℚ
  ball_pos : Vect
  ball_vel : Vect
  ball_radius : ℚ
  ball_speed_target : ℚ
  ball_speed_cur : ℚ
  ball_min_speed : ℚ
  ball_max_speed : ℚ
  state : GameState
  score : ℤ
  lives : ℤ
  combo_timer : ℚ
  combo_window : ℚ
  combo_mult : ℤ
  pierce_mode : Bool
  pierce_timer : ℚ
  pierce_duration : ℚ
  slowmo_mode : Bool
  slowmo_timer : ℚ
  slowmo_duration : ℚ
  slowmo_factor : ℚ
  trail_mode : Bool
  ball_trail : List Vect
  cheat_enlarge_paddle : Bool
  cheat_extra_life : Bool
  cheat_speed_lock : Bool
  magnet_active : Bool
  magnet_timer : ℚ
  magnet_duration : ℚ
  magnet_strength : ℚ
  score_mult_active : Bool
  score_mult_timer : ℚ
  score_mult_duration : ℚ
  score_mult_value : ℤ
  cheat_invincible : Bool
  cheat_freeze_ball : Bool
  ball_launched : Bool
  paused : Bool
  bricks_to_speedup : ℤ
  speedup_factor : ℚ
  balance : ℤ
  total_money : ℤ
  money_from_score_accumulator : ℤ
  score_per_dollar : ℤ
  shop_message : String
  shop_message_timer : ℚ
  shop_message_duration : ℚ
  freeze_timer : ℚ
  rand_idx : ℕ

/-- Attempt to purchase an item, returns true if successful
(`ArkanoidImpl::try_purchase`). -/
def try_purchase (cost : ℤ) (s : Ark) : Bool × Ark :=
  if cost ≤ 0 then (false, s)
  else if s.balance ≥ cost then
    (true, { s with
      balance := s.balance - cost
      shop_message := "Purchased for $" ++ toString cost ++ "!"
      shop_message_timer := s.shop_message_duration })
  else
    (false, { s with
      shop_message := "Not enough $"
      shop_message_timer := s.shop_message_duration })

/-- Add money to balance and total_money counters
(`ArkanoidImpl::add_money`). -/
def add_money (amount : ℤ) (s : Ark) : Ark :=
  if amount ≤ 0 then s
  else { s with
    balance := s.balance + amount
    total_money := s.total_money + amount
    shop_message := "Gained $" ++ toString amount
    shop_message_timer := s.shop_message_duration }

/-- Convert score points to money incrementally
(`ArkanoidImpl::grant_money_from_score`). -/
def grant_money_from_score (s : Ark) : Ark :=
  let s := if s.money_from_score_accumulator < 0 then
      { s with money_from_score_accumulator := 0 } else s
  if s.score ≤ s.money_from_score_accumulator then s
  else
    let delta_points := s.score - s.money_from_score_accumulator
    let dollars := Int.tdiv delta_points s.score_per_dollar
    if dollars > 0 then
      let s := add_money dollars s
      { s with money_from_score_accumulator :=
          s.money_from_score_accumulator + dollars * s.score_per_dollar }
    else s

/-- Truncation of a float toward zero on conversion to `int`
(the C-style `(int)` cast used by `build_level`). -/
def int_cast (q : ℚ) : ℤ := if q < 0 then ⌈q⌉ else ⌊q⌋

/-- Build bricks layout according to settings
(`ArkanoidImpl::build_level`).  The two `mt19937(1337)` distribution
draws made for brick number `i` are `O.unif01 i` and `O.hp_draw i`. -/
def build_level (O : Oracle) (L : Limits) (st : ArkanoidSettings) (s : Ark) : Ark :=
  let bricks_cols := int_cast (clampf (st.bricks_columns_count : ℚ)
    L.bricks_columns_min L.bricks_columns_max)
  let bricks_rows := int_cast (clampf (st.bricks_rows_count : ℚ)
    L.bricks_rows_min L.bricks_rows_max)
  let pad_x := clampf st.bricks_columns_padding
    L.bricks_columns_padding_min L.bricks_columns_padding_max
  let pad_y := clampf st.bricks_rows_padding
    L.bricks_rows_padding_min L.bricks_rows_padding_max
  let top_margin : ℚ := 40
  let side_margin : ℚ := 20
  let area_w := s.world_size.x - side_margin * 2
  let area_h := s.world_size.y * 0.45 - top_margin
  let total_pad_x := pad_x * ((bricks_cols : ℚ) - 1)
  let total_pad_y := pad_y * ((bricks_rows : ℚ) - 1)
  let bw := max 5 ((area_w - total_pad_x) / (bricks_cols : ℚ))
  let bh := max 8 ((area_h - total_pad_y) / (bricks_rows : ℚ))
  let mkBrick (r c : ℕ) : Brick :=
    let i := r * bricks_cols.toNat + c
    let x := side_margin + (c : ℚ) * (bw + pad_x)
    let y := top_margin + (r : ℚ) * (bh + pad_y)
    let p := O.unif01 i
    let bonus := decide (p < 0.15)
    let base_color := if bonus then IM_COL32 255 200 80 255
      else IM_COL32 (140 + int_cast (90 * (r : ℚ) / ((max 1 (bricks_rows - 1) : ℤ) : ℚ)))
        180 230 255
    let rnd := O.hp_draw i
    let hp : ℤ := if rnd < 5 then 3 else if rnd < 25 then 2 else 1
    { rect_world := make_rect_xywh x y bw bh
      alive := true
      score := 10 + (bricks_rows - 1 - (r : ℤ)) * 2
      bonus := bonus
      color := base_color
      hit_points := hp
      base_color := base_color }
  { s with
    bricks := ((List.range bricks_rows.toNat).map
      (fun r => (List.range bricks_cols.toNat).map (mkBrick r))).flatten
    bricks_cols := bricks_cols
    bricks_rows := bricks_rows
    brick_size := ⟨bw, bh⟩
    bricks_origin := ⟨side_margin, top_margin⟩ }

/-- Reset game state and prepare new level (`ArkanoidImpl::reset`).
Note what is NOT reinitialized: `total_money`, the shop message and its
timer, `trail_mode` is cleared but the function-static `freeze_timer`
is not. -/
def reset (O : Oracle) (L : Limits) (st : ArkanoidSettings) (s : Ark) : Ark :=
  let s := { s with settings := st, world_size := ⟨st.world_size.x, st.world_size.y⟩ }
  let s := { s with
    ball_radius := st.ball_radius
    ball_speed_target := clampf st.ball_speed L.ball_speed_min L.ball_speed_max }
  let s := { s with ball_speed_cur := s.ball_speed_target }
  let cw := clampf st.carriage_width L.carriage_width_min (s.world_size.x * 0.95)
  let cy := s.world_size.y - 40
  let cx := (s.world_size.x - cw) * 0.5
  let s := { s with carriage_world := make_rect_xywh cx cy cw s.carriage_height }
  let carr_center := rect_center s.carriage_world
  let s := { s with
    ball_pos := ⟨carr_center.x, s.carriage_world.pos.y - s.ball_radius - 1⟩
    ball_vel := (⟨0.7071067, -0.7071067⟩ : Vect) * s.ball_speed_cur
    ball_launched := true }
  let s := { s with
    state := GameState.Playing
    money_from_score_accumulator := 0
    score := 0
    balance := 0
    lives := 3
    combo_timer := 0
    combo_mult := 1
    pierce_mode := false
    pierce_timer := 0
    slowmo_mode := false
    slowmo_timer := 0
    trail_mode := false
    ball_trail := []
    bonuses := []
    particles := []
    cheat_enlarge_paddle := false
    cheat_extra_life := false
    cheat_speed_lock := false
    cheat_invincible := false
    cheat_freeze_ball := false
    magnet_active := false
    magnet_timer := 0
    score_mult_active := false
    score_mult_timer := 0
    score_mult_value := 1
    destroyed_bricks_count := 0
    paused := false }
  build_level O L st s

/-- Keep the paddle inside the world (`ArkanoidImpl::clamp_carriage`). -/
def clamp_carriage (s : Ark) : Ark :=
  { s with carriage_world := { s.carriage_world with pos :=
      { s.carriage_world.pos with
        x := clampf s.carriage_world.pos.x 0
          (s.world_size.x - s.carriage_world.size.x) } } }

/-- Paddle movement, width adjustment and clamping: the first block of
`handle_cheats_and_controls` (movement, enlarge cheat, height, clamp). -/
def hc_move (L : Limits) (io : Input) (dt : ℚ) (s : Ark) : Ark :=
  let dx := (if io.keyD then (1 : ℚ) else 0) - (if io.keyA then (1 : ℚ) else 0)
  let s := { s with carriage_world := { s.carriage_world with pos :=
      { s.carriage_world.pos with
        x := s.carriage_world.pos.x + dx * s.carriage_speed * dt } } }
  let s := if s.cheat_enlarge_paddle then
      { s with carriage_world := { s.carriage_world with size :=
          { s.carriage_world.size with
            x := clampf (s.settings.carriage_width * 1.6)
              L.carriage_width_min (s.world_size.x * 0.95) } } }
    else
      { s with carriage_world := { s.carriage_world with size :=
          { s.carriage_world.size with x := max 20 s.carriage_world.size.x } } }
  let s := { s with carriage_world := { s.carriage_world with size :=
      { s.carriage_world.size with y := s.carriage_height } } }
  clamp_carriage s

/-- Hotkeys for speed presets and pierce (keys 1/2/3/C). -/
def hc_keys (io : Input) (s : Ark) : Ark :=
  let s := if io.key1 then
      { s with ball_speed_target := max (0.5 * s.ball_speed_target) s.ball_min_speed }
    else s
  let s := if io.key2 then { s with ball_speed_target := s.settings.ball_speed } else s
  let s := if io.key3 then
      { s with ball_speed_target := min (1.5 * s.ball_speed_target) s.ball_max_speed }
    else s
  if io.keyC then { s with pierce_mode := true, pierce_timer := s.pierce_duration } else s

/-- Shop purchases from hotkeys (keys X/T/Q/Y/E); the `&&`
short-circuit means `try_purchase` runs only when the key is down. -/
def hc_shop (io : Input) (s : Ark) : Ark :=
  let s := if io.keyX then
      let r := try_purchase 10 s
      if r.1 then { r.2 with magnet_active := true, magnet_timer := r.2.magnet_duration }
      else r.2
    else s
  let s := if io.keyT then
      let r := try_purchase 15 s
      if r.1 then { r.2 with score_mult_active := true, score_mult_timer := r.2.score_mult_duration, score_mult_value := 3 } else r.2
    else s
  let s := if io.keyQ then
      let r := try_purchase 10 s
      if r.1 then { r.2 with cheat_freeze_ball := true } else r.2
    else s
  let s := if io.keyY then
      let r := try_purchase 60 s
      if r.1 then { r.2 with cheat_invincible := true, shop_message_timer := r.2.shop_message_duration } else r.2
    else s
  if io.keyE then
    let r := try_purchase 20 s
    if r.1 then { r.2 with lives := r.2.lives + 1 } else r.2
  else s

/-- One step of the nuke-row cheat loop body: destroy an alive brick
whose vertical extent contains the ball, with score, destroyed counter
and speedup bookkeeping. -/
def hc_nuke_one (s : Ark) (b : Brick) : Ark × Brick :=
  if !b.alive then (s, b)
  else if s.ball_pos.y ≥ b.rect_world.pos.y ∧
      s.ball_pos.y ≤ b.rect_world.pos.y + b.rect_world.size.y then
    let b := { b with alive := false }
    let s := { s with
      score := s.score + b.score * s.score_mult_value
      destroyed_bricks_count := s.destroyed_bricks_count + 1 }
    let s := if Int.tmod s.destroyed_bricks_count s.bricks_to_speedup = 0 then
        { s with ball_speed_target :=
            (clampf (s.ball_speed_target * s.speedup_factor) s.ball_min_speed s.ball_max_speed) }
      else s
    (s, b)
  else (s, b)

/-- The nuke-row loop over all bricks, threading the game state. -/
def hc_nuke_loop : List Brick → Ark → Ark × List Brick
  | [], s => (s, [])
  | b :: rest, s =>
    let p := hc_nuke_one s b
    let q := hc_nuke_loop rest p.1
    (q.1, p.2 :: q.2)

/-- Nuke row cheat (key N). -/
def hc_nuke (io : Input) (s : Ark) : Ark :=
  if io.keyN then
    let r := hc_nuke_loop s.bricks s
    { r.1 with bricks := r.2 }
  else s

/-- One-shot cheats (extra life flag, speed lock). -/
def hc_oneshots (s : Ark) : Ark :=
  let s := if s.cheat_extra_life then
      { s with lives := s.lives + 1, cheat_extra_life := false } else s
  if s.cheat_speed_lock then { s with ball_speed_target := s.ball_speed_cur } else s

/-- Magnet and score-multiplier buff timers. -/
def hc_timers (dt : ℚ) (s : Ark) : Ark :=
  let s := if s.magnet_active then
      let t := s.magnet_timer - dt
      if t ≤ 0 then { s with magnet_active := false, magnet_timer := 0 }
      else { s with magnet_timer := t }
    else s
  if s.score_mult_active then
    let t := s.score_mult_timer - dt
    if t ≤ 0 then
      { s with score_mult_active := false, score_mult_value := 1, score_mult_timer := 0 }
    else { s with score_mult_timer := t }
  else s

/-- Smooth speed interpolation toward the target speed. -/
def hc_speed (dt : ℚ) (s : Ark) : Ark :=
  let accel : ℚ := 800
  if s.ball_speed_cur < s.ball_speed_target then
    { s with ball_speed_cur := min s.ball_speed_target (s.ball_speed_cur + accel * dt) }
  else if s.ball_speed_cur > s.ball_speed_target then
    { s with ball_speed_cur := max s.ball_speed_target (s.ball_speed_cur - accel * dt) }
  else s

/-- Pierce and combo timers. -/
def hc_pierce_combo (dt : ℚ) (s : Ark) : Ark :=
  let s := if s.pierce_mode then
      let t := s.pierce_timer - dt
      if t ≤ 0 then { s with pierce_mode := false, pierce_timer := 0 }
      else { s with pierce_timer := t }
    else s
  if s.combo_timer > 0 then
    let t := s.combo_timer - dt
    if t ≤ 0 then { s with combo_mult := 1, combo_timer := 0 }
    else { s with combo_timer := t }
  else s

/-- Ball trail bookkeeping. -/
def hc_trail (s : Ark) : Ark :=
  if s.trail_mode then
    let trail := s.ball_trail ++ [s.ball_pos]
    { s with ball_trail := if trail.length > 16 then trail.drop 1 else trail }
  else if s.ball_trail ≠ [] then { s with ball_trail := [] } else s

/-- Shop message timer; the message is cleared when the timer lapses
(the timer itself keeps its lapsed value). -/
def hc_msg (dt : ℚ) (s : Ark) : Ark :=
  if s.shop_message ≠ "" then
    let t := s.shop_message_timer - dt
    if t ≤ 0 then { s with shop_message_timer := t, shop_message := "" }
    else { s with shop_message_timer := t }
  else s

/-- Controls and cheats handler
(`ArkanoidImpl::handle_cheats_and_controls`), as the composition of its
blocks in source order. -/
def handle_cheats_and_controls (L : Limits) (io : Input) (dt : ℚ) (s : Ark) : Ark :=
  hc_msg dt (hc_trail (hc_pierce_combo dt (hc_speed dt (hc_timers dt
    (hc_oneshots (hc_nuke io (hc_shop io (hc_keys io (hc_move L io dt s)))))))))

/-- Reflect the ball velocity across the given normal, then prevent
too-flat trajectories by enforcing minimum velocity components
(`ArkanoidImpl::reflect_ball`).  `rand()` is consumed only when the
reflected x component is exactly zero, as in the C++ ternary. -/
def reflect_ball (O : Oracle) (normal : Vect) (s : Ark) : Ark :=
  let v := s.ball_vel
  let dot := v.x * normal.x + v.y * normal.y
  let reflected : Vect := v - normal * (2 * dot)
  let min_comp := 0.15 * s.ball_speed_cur
  let rx : ℚ :=
    if |reflected.x| < min_comp then
      sgn (if reflected.x = 0 then ((((O.rand s.rand_idx % 2 : ℕ) : ℤ) * 2 - 1 : ℤ) : ℚ)
        else reflected.x) * min_comp
    else reflected.x
  let idx : ℕ :=
    if |reflected.x| < min_comp ∧ reflected.x = 0 then s.rand_idx + 1 else s.rand_idx
  let ry : ℚ :=
    if |reflected.y| < min_comp then
      sgn (if reflected.y = 0 then (-1 : ℚ) else reflected.y) * min_comp
    else reflected.y
  { s with ball_vel := ⟨rx, ry⟩, rand_idx := idx }

/-- Bounce off paddle with angle influenced by hit position
(`ArkanoidImpl::bounce_from_carriage`). -/
def bounce_from_carriage (O : Oracle) (r : Rect) (hit_pos_world : Vect) (s : Ark) : Ark :=
  let t := (hit_pos_world.x - r.pos.x) / max 1 r.size.x
  let angle := (t - 0.5) * 1.2
  let dir : Vect := ⟨O.sin angle, -(O.cos angle)⟩
  { s with ball_vel := dir * s.ball_speed_cur }

/-- Check collision between the ball (circle) and a rectangle
(`ArkanoidImpl::collide_ball_with_rect`); `some (normal, hit_pos, t)`
plays the role of the `true` return with its three out parameters. -/
def collide_ball_with_rect (s : Ark) (r : Rect) : Option (Vect × Vect × ℚ) :=
  let cx := clampf s.ball_pos.x r.pos.x (r.pos.x + r.size.x)
  let cy := clampf s.ball_pos.y r.pos.y (r.pos.y + r.size.y)
  let closest : Vect := ⟨cx, cy⟩
  let d := s.ball_pos - closest
  if d.lenSq > s.ball_radius * s.ball_radius then none
  else
    let dxLeft := |s.ball_pos.x + s.ball_radius - r.pos.x|
    let dxRight := |r.pos.x + r.size.x - (s.ball_pos.x - s.ball_radius)|
    let dyTop := |s.ball_pos.y + s.ball_radius - r.pos.y|
    let dyBottom := |r.pos.y + r.size.y - (s.ball_pos.y - s.ball_radius)|
    let minPen := min (min dxLeft dxRight) (min dyTop dyBottom)
    let out_normal : Vect :=
      if minPen = dxLeft then ⟨-1, 0⟩
      else if minPen = dxRight then ⟨1, 0⟩
      else if minPen = dyTop then ⟨0, -1⟩
      else ⟨0, 1⟩
    some (out_normal, closest, 0)

/-- Freeze-cheat processing and current-speed selection: the first
block of `ArkanoidImpl::integrate_ball` (the C++ function-static
`freeze_timer` is the state field `freeze_timer`). -/
def ball_speed_update (dt : ℚ) (s : Ark) : Ark :=
  let s := if s.cheat_freeze_ball then
      let s := if s.freeze_timer ≤ 0 then { s with freeze_timer := 5 } else s
      { s with cheat_freeze_ball := false }
    else s
  if s.freeze_timer > 0 then
    { s with
      freeze_timer := s.freeze_timer - dt
      ball_speed_cur := max s.ball_min_speed (s.ball_speed_target * 0.2) }
  else { s with ball_speed_cur := s.ball_speed_target }

/-- Velocity magnitude adjustment and position integration: the middle
block of `ArkanoidImpl::integrate_ball`. -/
def ball_move (O : Oracle) (dt : ℚ) (s : Ark) : Ark :=
  let cur_len := s.ball_vel.length O
  let s := if cur_len > 1e-6 then
      { s with ball_vel := s.ball_vel * (s.ball_speed_cur / cur_len) }
    else s
  { s with ball_pos := s.ball_pos + s.ball_vel * dt }

/-- Wall collisions of `ArkanoidImpl::integrate_ball`. -/
def ball_walls (O : Oracle) (s : Ark) : Ark :=
  let s :=
    if s.ball_pos.x < s.ball_radius then
      let overshoot := s.ball_radius - s.ball_pos.x
      reflect_ball O ⟨1, 0⟩
        { s with ball_pos := { s.ball_pos with x := s.ball_pos.x + overshoot * 2 } }
    else if s.ball_pos.x > s.world_size.x - s.ball_radius then
      let overshoot := s.ball_pos.x - (s.world_size.x - s.ball_radius)
      reflect_ball O ⟨-1, 0⟩
        { s with ball_pos := { s.ball_pos with x := s.ball_pos.x - overshoot * 2 } }
    else s
  if s.ball_pos.y < s.ball_radius then
    let overshoot := s.ball_radius - s.ball_pos.y
    reflect_ball O ⟨0, 1⟩
      { s with ball_pos := { s.ball_pos with y := s.ball_pos.y + overshoot * 2 } }
  else s

/-- Bottom: lose life unless invincible; the last block of
`ArkanoidImpl::integrate_ball`. -/
def ball_bottom_check (s : Ark) : Ark :=
  if s.ball_pos.y > s.world_size.y + s.ball_radius then
    let s := if !s.cheat_invincible then { s with lives := s.lives - 1 } else s
    let s := { s with
      combo_mult := 1
      combo_timer := 0
      pierce_mode := false
      pierce_timer := 0 }
    if s.lives ≤ 0 then { s with state := GameState.Lose }
    else
      let carr_center := rect_center s.carriage_world
      { s with
        ball_pos := ⟨carr_center.x, s.carriage_world.pos.y - s.ball_radius - 1⟩
        ball_vel := (⟨0.7071067, -0.7071067⟩ : Vect) * s.ball_speed_target }
  else s

/-- Ball integration (`ArkanoidImpl::integrate_ball`), as the
composition of its blocks in source order. -/
def integrate_ball (O : Oracle) (dt : ℚ) (s : Ark) : Ark :=
  ball_bottom_check (ball_walls O (ball_move O dt (ball_speed_update dt s)))

/-- Spawn a bonus item at a world position
(`ArkanoidImpl::spawn_bonus_at`). -/
def spawn_bonus_at (world_pos : Vect) (type : BonusType) (s : Ark) : Ark :=
  let w := s.brick_size.x * 0.7
  let h := s.brick_size.y * 0.7
  let color := match type with
    | BonusType.SpeedUp => IM_COL32 255 180 80 255
    | BonusType.EnlargePaddle => IM_COL32 120 200 255 255
    | BonusType.ExtraLife => IM_COL32 200 240 140 255
    | BonusType.Pierce => IM_COL32 255 120 120 255
    | BonusType.SlowMo => IM_COL32 180 140 255 255
    | BonusType.Points => IM_COL32 255 220 120 255
    | BonusType.Magnet => IM_COL32 160 255 200 255
    | BonusType.ScoreMult => IM_COL32 255 160 220 255
    | _ => IM_COL32 255 255 255 255
  let points : ℤ := if type = BonusType.Points then 50 else 0
  let b : Bonus := {
    rect_world := make_rect_xywh (world_pos.x - w * 0.5) (world_pos.y - h * 0.5) w h
    type := type
    vel := ⟨0, 80⟩
    alive := true
    color := color
    points := points
    glow := 0 }
  { s with bonuses := s.bonuses ++ [b] }

/-- Apply bonus effect (`ArkanoidImpl::apply_bonus`); the `ScoreMult`
case consumes one `rand()` draw. -/
def apply_bonus (O : Oracle) (L : Limits) (b : Bonus) (s : Ark) : Ark :=
  match b.type with
  | BonusType.SpeedUp =>
    { s with ball_speed_target := min (s.ball_speed_target * 1.15 + 10) s.ball_max_speed }
  | BonusType.EnlargePaddle =>
    let new_width := max (s.carriage_world.size.x * 1.3) s.carriage_world.size.x
    let s := { s with carriage_world := { s.carriage_world with size :=
        { s.carriage_world.size with
          x := clampf new_width L.carriage_width_min (s.world_size.x * 0.95) } } }
    clamp_carriage { s with cheat_enlarge_paddle := false }
  | BonusType.ExtraLife => { s with lives := s.lives + 1 }
  | BonusType.Pierce => { s with pierce_mode := true, pierce_timer := s.pierce_duration }
  | BonusType.SlowMo =>
    { s with
      slowmo_mode := true
      slowmo_timer := 5
      ball_speed_target := s.ball_speed_target * 0.4 }
  | BonusType.Points => { s with score := s.score + b.points * s.score_mult_value }
  | BonusType.Magnet => { s with magnet_active := true, magnet_timer := s.magnet_duration }
  | BonusType.ScoreMult =>
    { s with
      score_mult_active := true
      score_mult_timer := s.score_mult_duration
      score_mult_value := (if O.rand s.rand_idx % 2 ≠ 0 then 2 else 3)
      rand_idx := s.rand_idx + 1 }
  | _ => s

/-- Loop body of `ArkanoidImpl::integrate_bonuses` for one bonus item:
glow pulse, magnet steering or constant fall, movement, paddle
consumption, off-screen discard. -/
def integrate_bonus_one (O : Oracle) (L : Limits) (dt : ℚ) (b : Bonus) (s : Ark) :
    Bonus × Ark :=
  if !b.alive then (b, s)
  else
    let b := { b with glow := b.glow + dt * 6 }
    let b := if b.glow > 6.28 then { b with glow := b.glow - 6.28 } else b
    let b :=
      if s.magnet_active then
        let center := rect_center s.carriage_world
        let dir := center - rect_center b.rect_world
        let dist := dir.length O
        if dist > 1e-4 then
          { b with vel :=
              b.vel + (dir.normalized O) * (s.magnet_strength / (0.5 + dist * 0.02)) * dt }
        else b
      else { b with vel := { b.vel with y := 80 } }
    let b := { b with rect_world := { b.rect_world with pos := b.rect_world.pos + b.vel * dt } }
    let overlap : Bool :=
      decide (b.rect_world.pos.x + b.rect_world.size.x ≥ s.carriage_world.pos.x ∧
        b.rect_world.pos.x ≤ s.carriage_world.pos.x + s.carriage_world.size.x ∧
        b.rect_world.pos.y + b.rect_world.size.y ≥ s.carriage_world.pos.y ∧
        b.rect_world.pos.y ≤ s.carriage_world.pos.y + s.carriage_world.size.y)
    let s := if overlap then apply_bonus O L b s else s
    let b := if overlap then ({ b with alive := false } : Bonus) else b
    let b := if b.rect_world.pos.y > s.world_size.y + 20 then { b with alive := false } else b
    (b, s)

/-- The bonus loop, threading the game state. -/
def integrate_bonuses_loop (O : Oracle) (L : Limits) (dt : ℚ) :
    List Bonus → Ark → List Bonus × Ark
  | [], s => ([], s)
  | b :: rest, s =>
    let p := integrate_bonus_one O L dt b s
    let q := integrate_bonuses_loop O L dt rest p.2
    (p.1 :: q.1, q.2)

/-- Bonus integration (`ArkanoidImpl::integrate_bonuses`), including
the compaction of not-alive bonuses. -/
def integrate_bonuses (O : Oracle) (L : Limits) (dt : ℚ) (s : Ark) : Ark :=
  let r := integrate_bonuses_loop O L dt s.bonuses s
  { r.2 with bonuses := r.1.filter (·.alive) }

/-- Spawn visual particles at a given world position
(`ArkanoidImpl::spawn_particles`); the position-seeded `mt19937` draws
for particle `i` come from `O.particle_draw seed i`. -/
def spawn_particles (O : Oracle) (world_pos : Vect) (color : Color) (count : ℕ)
    (s : Ark) : Ark :=
  let seed := world_pos.x * 1000 + world_pos.y
  let ps := (List.range count).map (fun i =>
    let (a, spd, rawlife, size) := O.particle_draw seed i
    ({ pos := world_pos
       vel := (⟨O.cos a, O.sin a⟩ : Vect) * spd
       life := 0.6 + ((rawlife % 100 : ℕ) : ℚ) * 0.002
       size := size
       color := color } : Particle))
  { s with particles := s.particles ++ ps }

/-- Particle integration (`ArkanoidImpl::integrate_particles`). -/
def integrate_particles (dt : ℚ) (s : Ark) : Ark :=
  let ps := s.particles.map (fun p =>
    let p := { p with pos := p.pos + p.vel * dt }
    let p := { p with vel := { p.vel with y := p.vel.y + 200 * dt } }
    let p := { p with vel := p.vel * (1 - 2 * dt) }
    { p with life := p.life - dt })
  { s with particles := ps.filter (fun p => !decide (p.life ≤ 0)) }

/-- Record collision information for debugging
(`ArkanoidImpl::add_debug_hit`). -/
def add_debug_hit (s : Ark) (d : List Hit) (world_pos normal : Vect) : List Hit :=
  d ++ [{ screen_pos := ⟨world_pos.x * s.screen_scale.x, world_pos.y * s.screen_scale.y⟩
          normal := normal }]

/-- The switch over the bonus draw `uniform_int_distribution(0,6)` in
the brick-destruction branch of `ArkanoidImpl::handle_collisions`
(cases 0..6; values above 6 cannot occur for a `Fin 7`). -/
def bonus_case (c : Fin 7) : BonusType :=
  match c.val with
  | 0 => BonusType.SpeedUp
  | 1 => BonusType.EnlargePaddle
  | 2 => BonusType.ExtraLife
  | 3 => BonusType.Pierce
  | 4 => BonusType.Points
  | 5 => BonusType.Magnet
  | _ => BonusType.ScoreMult

/-- Response to a ball hit on an alive brick: the body of the brick
loop of `ArkanoidImpl::handle_collisions` after the collision test and
the (conditional) reflection; partial-damage branch and destruction
branch, in source order. -/
def process_brick_hit (O : Oracle) (n hit_pos : Vect) (b : Brick) (s : Ark)
    (d : List Hit) : Brick × Ark × List Hit :=
  if b.hit_points > 1 then
    let b := { b with hit_points := b.hit_points - 1 }
    let s := { s with score := s.score + Int.tdiv b.score 3 * s.score_mult_value }
    let r : ℤ := b.base_color.r
    let g : ℤ := b.base_color.g
    let bl : ℤ := b.base_color.b
    let rgbl : ℤ × ℤ × ℤ :=
      if b.hit_points = 2 then (min 255 (r + 30), max 60 (g - 20), max 30 (bl - 60))
      else if b.hit_points = 1 then (min 255 (r + 60), max 40 (g - 40), max 20 (bl - 100))
      else (r, g, bl)
    let b := { b with color := IM_COL32 rgbl.1 rgbl.2.1 rgbl.2.2 255 }
    let s := spawn_particles O (rect_center b.rect_world) b.color 6 s
    let s := { s with combo_mult := min 9 (s.combo_mult + 1), combo_timer := s.combo_window }
    let d := add_debug_hit s d hit_pos n
    (b, s, d)
  else
    let b := { b with alive := false }
    let s := { s with score := s.score + b.score * s.combo_mult * s.score_mult_value }
    let s := { s with combo_mult := min 9 (s.combo_mult + 1), combo_timer := s.combo_window }
    let s := spawn_particles O (rect_center b.rect_world) b.color 14 s
    let s :=
      if b.bonus then
        let center := rect_center b.rect_world
        let choice := O.bonus_choice (center.x * 1000 + center.y)
        spawn_bonus_at center (bonus_case choice) s
      else s
    let d := add_debug_hit s d hit_pos n
    let s := { s with destroyed_bricks_count := s.destroyed_bricks_count + 1 }
    let s := if Int.tmod s.destroyed_bricks_count s.bricks_to_speedup = 0 then
        { s with ball_speed_target :=
            (clampf (s.ball_speed_target * s.speedup_factor) s.ball_min_speed s.ball_max_speed) }
      else s
    (b, s, d)

/-- The brick loop of `ArkanoidImpl::handle_collisions`: skip dead
bricks, resolve the first hit and break unless pierce mode is active. -/
def handle_bricks (O : Oracle) : List Brick → Ark → List Hit →
    List Brick × Ark × List Hit
  | [], s, d => ([], s, d)
  | b :: rest, s, d =>
    if !b.alive then
      let q := handle_bricks O rest s d
      (b :: q.1, q.2.1, q.2.2)
    else
      match collide_ball_with_rect s b.rect_world with
      | none =>
        let q := handle_bricks O rest s d
        (b :: q.1, q.2.1, q.2.2)
      | some (n, hit_pos, _t) =>
        let s := if !s.pierce_mode then reflect_ball O n s else s
        let p := process_brick_hit O n hit_pos b s d
        if !p.2.1.pierce_mode then (p.1 :: rest, p.2.1, p.2.2)
        else
          let q := handle_bricks O rest p.2.1 p.2.2
          (p.1 :: q.1, q.2.1, q.2.2)

/-- Main collision handler (`ArkanoidImpl::handle_collisions`): paddle
collision first, then the brick loop. -/
def handle_collisions (O : Oracle) (s : Ark) (d : List Hit) : Ark × List Hit :=
  let p :=
    match collide_ball_with_rect s s.carriage_world with
    | some (_n, hit_pos, _t) =>
      let s := { s with ball_pos :=
          { s.ball_pos with y := s.carriage_world.pos.y - s.ball_radius - 0.5 } }
      let s := bounce_from_carriage O s.carriage_world hit_pos s
      let d := add_debug_hit s d hit_pos ⟨0, -1⟩
      (s, d)
    | none => (s, d)
  let q := handle_bricks O p.1.bricks p.1 p.2
  ({ q.2.1 with bricks := q.1 }, q.2.2)

/-- World to screen scale (`ArkanoidImpl::world_to_screen_scale`). -/
def world_to_screen_scale (io : Input) (s : Ark) : Vect :=
  ⟨io.display.x / s.world_size.x, io.display.y / s.world_size.y⟩

/-- Slow-motion factoring of the frame time: the first block of
`ArkanoidImpl::update` (it runs BEFORE the game-state check, so the
slow-motion timer also counts down in `Win` and `Lose` states). -/
def slowmo_step (elapsed : ℚ) (s : Ark) : ℚ × Ark :=
  if s.slowmo_mode then
    let dt := elapsed * s.slowmo_factor
    let t := s.slowmo_timer - elapsed
    if t ≤ 0 then (dt, { s with slowmo_timer := 0, slowmo_mode := false })
    else (dt, { s with slowmo_timer := t })
  else (elapsed, s)

/-- Placeholder for sticky launch (`ArkanoidImpl::launch_ball_if_needed`). -/
def launch_ball_if_needed (s : Ark) : Ark := s

/-- Whether any brick is alive (the win-condition scan in
`ArkanoidImpl::update`). -/
def any_alive (bricks : List Brick) : Bool := bricks.any (·.alive)

/-- Update game state each frame (`ArkanoidImpl::update`).  The debug
hit list it returns models the cleared-then-filled
`ArkanoidDebugData::hits`. -/
def update (O : Oracle) (L : Limits) (io : Input) (elapsed : ℚ) (s : Ark) :
    Ark × List Hit :=
  let s := { s with screen_scale := world_to_screen_scale io s }
  let d : List Hit := []
  let sm := slowmo_step elapsed s
  let dt := sm.1
  let s := sm.2
  if s.state ≠ GameState.Playing then
    (if io.keyR then reset O L s.settings s else s, d)
  else
    let s := grant_money_from_score s
    let s := handle_cheats_and_controls L io dt s
    if s.paused then (s, d)
    else
      let s := launch_ball_if_needed s
      let s := integrate_ball O dt s
      let s := integrate_bonuses O L dt s
      let s := integrate_particles dt s
      let p := handle_collisions O s d
      let s := if any_alive p.1.bricks then p.1 else { p.1 with state := GameState.Win }
      (s, p.2)

/-- A concrete settings value for instantiating theorems (the values a
caller might pass; the defaults of `ArkanoidSettings` are immaterial to
the claims). -/
def baseSettings : ArkanoidSettings :=
  { world_size := ⟨800, 600⟩
    ball_radius := 10
    ball_speed := 150
    carriage_width := 100
    bricks_columns_count := 10
    bricks_rows_count := 5
    bricks_columns_padding := 5
    bricks_rows_padding := 5 }

/-- Concrete min/max constants for instantiating theorems. -/
def baseLimits : Limits :=
  { ball_speed_min := 60
    ball_speed_max := 5000
    carriage_width_min := 40
    bricks_columns_min := 5
    bricks_columns_max := 30
    bricks_rows_min := 2
    bricks_rows_max := 20
    bricks_columns_padding_min := 0
    bricks_columns_padding_max := 20
    bricks_rows_padding_min := 0
    bricks_rows_padding_max := 20 }

/-- A concrete oracle for instantiating theorems (every theorem holds
for all oracles, so any computable choice serves as witness input). -/
def baseOracle : Oracle :=
  { sqrt := fun q => q
    sin := fun _ => 0
    cos := fun _ => 1
    rand := fun _ => 0
    unif01 := fun _ => 1/2
    hp_draw := fun _ => 99
    bonus_choice := fun _ => 0
    particle_draw := fun _ _ => (0, 0, 0, 1) }

/-- The initial `ArkanoidImpl` state: the in-class initializers of the
header, with a given settings value, a zero function-static
`freeze_timer` and the `rand()` stream at position 0. -/
def mkArk (st : ArkanoidSettings) : Ark :=
  { settings := st
    world_size := ⟨800, 600⟩
    screen_scale := ⟨1, 1⟩
    bricks := []
    bricks_cols := 0
    bricks_rows := 0
    brick_size := ⟨0, 0⟩
    bricks_origin := ⟨0, 0⟩
    destroyed_bricks_count := 0
    bonuses := []
    particles := []
    carriage_world := ⟨⟨0, 0⟩, ⟨100, 20⟩⟩
    carriage_height := 18
    carriage_speed := 500
    ball_pos := ⟨0, 0⟩
    ball_vel := ⟨0, 0⟩
    ball_radius := 10
    ball_speed_target := 150
    ball_speed_cur := 150
    ball_min_speed := 60
    ball_max_speed := 5000
    state := GameState.Playing
    score := 0
    lives := 3
    combo_timer := 0
    combo_window := 1.2
    combo_mult := 1
    pierce_mode := false
    pierce_timer := 0
    pierce_duration := 2
    slowmo_mode := false
    slowmo_timer := 0
    slowmo_duration := 3
    slowmo_factor := 0.45
    trail_mode := false
    ball_trail := []
    cheat_enlarge_paddle := false
    cheat_extra_life := false
    cheat_speed_lock := false
    magnet_active := false
    magnet_timer := 0
    magnet_duration := 6
    magnet_strength := 600
    score_mult_active := false
    score_mult_timer := 0
    score_mult_duration := 8
    score_mult_value := 1
    cheat_invincible := false
    cheat_freeze_ball := false
    ball_launched := true
    paused := false
    bricks_to_speedup := 10
    speedup_factor := 1.10
    balance := 0
    total_money := 0
    money_from_score_accumulator := 0
    score_per_dollar := 100
    shop_message := ""
    shop_message_timer := 0
    shop_message_duration := 2.5
    freeze_timer := 0
    rand_idx := 0 }

/-- The all-keys-up input snapshot. -/
def noInput : Input :=
  { keyR := false, keyA := false, keyD := false, key1 := false, key2 := false
    key3 := false, keyC := false, keyX := false, keyT := false, keyQ := false
    keyY := false, keyE := false, keyN := false, display := ⟨800, 600⟩ }

/-- A concrete state with a single alive bonus-flagged brick whose
vertical extent contains the stationary ball, for exercising the
nuke-row cheat path. -/
def nukeState : Ark :=
  { mkArk baseSettings with
    bricks := [{ rect_world := ⟨⟨100, 300⟩, ⟨50, 20⟩⟩, alive := true, score := 10
                 bonus := true, color := IM_COL32 255 200 80 255, hit_points := 1
                 base_color := IM_COL32 255 200 80 255 }]
    ball_pos := ⟨400, 310⟩ }

/-- The frame of a stage that moves neither the game-state machine nor
the paddle: state, pause flag, settings, world size and paddle
rectangle all unchanged. -/
def Frame (a b : Ark) : Prop :=
  a.state = b.state ∧ a.paused = b.paused ∧ a.settings = b.settings
    ∧ a.world_size = b.world_size ∧ a.carriage_world = b.carriage_world

/-- The frame of a stage that may move the paddle but not the
game-state machine. -/
def FrameNC (a b : Ark) : Prop :=
  a.state = b.state ∧ a.paused = b.paused ∧ a.settings = b.settings
    ∧ a.world_size = b.world_size

/-- The frame of a stage that may change the game state but moves
neither the pause flag, the settings, the world size nor the paddle. -/
def FrameNS (a b : Ark) : Prop :=
  a.paused = b.paused ∧ a.settings = b.settings ∧ a.world_size = b.world_size
    ∧ a.carriage_world = b.carriage_world

/-- The paddle-in-world invariant of the spec: the paddle left edge
lies in [0, worldWidth − paddleWidth]. -/
def PaddleInv (s : Ark) : Prop :=
  0 ≤ s.carriage_world.pos.x ∧
    s.carriage_world.pos.x ≤ s.world_size.x - s.carriage_world.size.x

/-! ## Theorems -/

/-- A full frame is in particular a no-state-change frame. -/
theorem Frame.nc {a b : Ark} (h : Frame a b) : FrameNC a b :=
  ⟨h.1, h.2.1, h.2.2.1, h.2.2.2.1⟩

/-- Frames compose. -/
theorem Frame.frame_comp {a b c : Ark} (h1 : Frame a b) (h2 : Frame b c) : Frame a c :=
  ⟨h1.1.trans h2.1, h1.2.1.trans h2.2.1, h1.2.2.1.trans h2.2.2.1,
    h1.2.2.2.1.trans h2.2.2.2.1, h1.2.2.2.2.trans h2.2.2.2.2⟩

/-- No-state-change frames compose. -/
theorem FrameNC.nc_comp {a b c : Ark} (h1 : FrameNC a b) (h2 : FrameNC b c) : FrameNC a c :=
  ⟨h1.1.trans h2.1, h1.2.1.trans h2.2.1, h1.2.2.1.trans h2.2.2.1,
    h1.2.2.2.trans h2.2.2.2⟩

/-- The paddle invariant transports along a paddle-preserving frame. -/
theorem PaddleInv.of_frame {a b : Ark} (h : Frame a b) (hb : PaddleInv b) : PaddleInv a := by
  unfold PaddleInv
  rw [h.2.2.2.1, h.2.2.2.2]
  exact hb

/-- The slow-motion preamble of `update` only touches the slow-motion
flag and timer (and is a paddle/state frame). -/
theorem slowmo_step_frame (e : ℚ) (s : Ark) : Frame (slowmo_step e s).2 s := by
  refine ⟨?_, ?_, ?_, ?_, ?_⟩ <;>
    simp only [slowmo_step, apply_ite (Prod.snd : ℚ × Ark → Ark), apply_ite Ark.state,
      apply_ite Ark.paused, apply_ite Ark.settings, apply_ite Ark.world_size,
      apply_ite Ark.carriage_world, ite_self]

/-- Score-to-money conversion is a paddle/state frame. -/
theorem grant_money_frame (s : Ark) : Frame (grant_money_from_score s) s := by
  refine ⟨?_, ?_, ?_, ?_, ?_⟩ <;>
    simp only [grant_money_from_score, add_money, apply_ite Ark.state,
      apply_ite Ark.paused, apply_ite Ark.settings, apply_ite Ark.world_size,
      apply_ite Ark.carriage_world, ite_self]

/-- Purchases are paddle/state frames. -/
theorem try_purchase_frame (c : ℤ) (s : Ark) : Frame (try_purchase c s).2 s := by
  refine ⟨?_, ?_, ?_, ?_, ?_⟩ <;>
    simp only [try_purchase, apply_ite (Prod.snd : Bool × Ark → Ark), apply_ite Ark.state,
      apply_ite Ark.paused, apply_ite Ark.settings, apply_ite Ark.world_size,
      apply_ite Ark.carriage_world, ite_self]

/-- Speed presets and pierce hotkeys form a paddle/state frame. -/
theorem hc_keys_frame (io : Input) (s : Ark) : Frame (hc_keys io s) s := by
  refine ⟨?_, ?_, ?_, ?_, ?_⟩ <;>
    simp only [hc_keys, apply_ite Ark.state, apply_ite Ark.paused, apply_ite Ark.settings,
      apply_ite Ark.world_size, apply_ite Ark.carriage_world, ite_self]

/-- Shop hotkeys form a paddle/state frame. -/
theorem hc_shop_frame (io : Input) (s : Ark) : Frame (hc_shop io s) s := by
  have h1 := fun c u => (try_purchase_frame c u).1
  have h2 := fun c u => (try_purchase_frame c u).2.1
  have h3 := fun c u => (try_purchase_frame c u).2.2.1
  have h4 := fun c u => (try_purchase_frame c u).2.2.2.1
  have h5 := fun c u => (try_purchase_frame c u).2.2.2.2
  refine ⟨?_, ?_, ?_, ?_, ?_⟩ <;>
    simp only [hc_shop, apply_ite Ark.state, apply_ite Ark.paused, apply_ite Ark.settings,
      apply_ite Ark.world_size, apply_ite Ark.carriage_world, h1, h2, h3, h4, h5, ite_self]

/-- One nuke-row step is a paddle/state frame on the game state. -/
theorem hc_nuke_one_frame (s : Ark) (b : Brick) : Frame (hc_nuke_one s b).1 s := by
  refine ⟨?_, ?_, ?_, ?_, ?_⟩ <;>
    simp only [hc_nuke_one, apply_ite (Prod.fst : Ark × Brick → Ark), apply_ite Ark.state,
      apply_ite Ark.paused, apply_ite Ark.settings, apply_ite Ark.world_size,
      apply_ite Ark.carriage_world, ite_self]

/-- The nuke-row loop is a paddle/state frame on the game state. -/
theorem hc_nuke_loop_frame (bs : List Brick) (s : Ark) :
    Frame (hc_nuke_loop bs s).1 s := by
  induction bs generalizing s with
  | nil => exact ⟨rfl, rfl, rfl, rfl, rfl⟩
  | cons b rest ih =>
    exact Frame.frame_comp (ih (hc_nuke_one s b).1) (hc_nuke_one_frame s b)

/-- The nuke-row cheat is a paddle/state frame. -/
theorem hc_nuke_frame (io : Input) (s : Ark) : Frame (hc_nuke io s) s := by
  unfold hc_nuke
  split_ifs
  · exact Frame.frame_comp ⟨rfl, rfl, rfl, rfl, rfl⟩ (hc_nuke_loop_frame s.bricks s)
  · exact ⟨rfl, rfl, rfl, rfl, rfl⟩

/-- One-shot cheats form a paddle/state frame. -/
theorem hc_oneshots_frame (s : Ark) : Frame (hc_oneshots s) s := by
  refine ⟨?_, ?_, ?_, ?_, ?_⟩ <;>
    simp only [hc_oneshots, apply_ite Ark.state, apply_ite Ark.paused,
      apply_ite Ark.settings, apply_ite Ark.world_size, apply_ite Ark.carriage_world,
      ite_self]

/-- Buff timers form a paddle/state frame. -/
theorem hc_timers_frame (dt : ℚ) (s : Ark) : Frame (hc_timers dt s) s := by
  refine ⟨?_, ?_, ?_, ?_, ?_⟩ <;>
    simp only [hc_timers, apply_ite Ark.state, apply_ite Ark.paused,
      apply_ite Ark.settings, apply_ite Ark.world_size, apply_ite Ark.carriage_world,
      ite_self]

/-- Speed interpolation is a paddle/state frame. -/
theorem hc_speed_frame (dt : ℚ) (s : Ark) : Frame (hc_speed dt s) s := by
  refine ⟨?_, ?_, ?_, ?_, ?_⟩ <;>
    simp only [hc_speed, apply_ite Ark.state, apply_ite Ark.paused,
      apply_ite Ark.settings, apply_ite Ark.world_size, apply_ite Ark.carriage_world,
      ite_self]

/-- Pierce and combo timers form a paddle/state frame. -/
theorem hc_pierce_combo_frame (dt : ℚ) (s : Ark) : Frame (hc_pierce_combo dt s) s := by
  refine ⟨?_, ?_, ?_, ?_, ?_⟩ <;>
    simp only [hc_pierce_combo, apply_ite Ark.state, apply_ite Ark.paused,
      apply_ite Ark.settings, apply_ite Ark.world_size, apply_ite Ark.carriage_world,
      ite_self]

/-- Trail bookkeeping is a paddle/state frame. -/
theorem hc_trail_frame (s : Ark) : Frame (hc_trail s) s := by
  refine ⟨?_, ?_, ?_, ?_, ?_⟩ <;>
    simp only [hc_trail, apply_ite Ark.state, apply_ite Ark.paused,
      apply_ite Ark.settings, apply_ite Ark.world_size, apply_ite Ark.carriage_world,
      ite_self]

/-- Shop-message expiry is a paddle/state frame. -/
theorem hc_msg_frame (dt : ℚ) (s : Ark) : Frame (hc_msg dt s) s := by
  refine ⟨?_, ?_, ?_, ?_, ?_⟩ <;>
    simp only [hc_msg, apply_ite Ark.state, apply_ite Ark.paused,
      apply_ite Ark.settings, apply_ite Ark.world_size, apply_ite Ark.carriage_world,
      ite_self]

/-- Paddle movement and clamping preserve game state, pause flag,
settings and world size. -/
theorem hc_move_framenc (L : Limits) (io : Input) (dt : ℚ) (s : Ark) :
    FrameNC (hc_move L io dt s) s := by
  refine ⟨?_, ?_, ?_, ?_⟩ <;>
    simp only [hc_move, clamp_carriage, apply_ite Ark.state, apply_ite Ark.paused,
      apply_ite Ark.settings, apply_ite Ark.world_size, ite_self]

/-- The whole controls handler preserves game state, pause flag,
settings and world size (the paddle may move). -/
theorem handle_cheats_framenc (L : Limits) (io : Input) (dt : ℚ) (s : Ark) :
    FrameNC (handle_cheats_and_controls L io dt s) s := by
  unfold handle_cheats_and_controls
  refine FrameNC.nc_comp (Frame.nc (hc_msg_frame dt _)) ?_
  refine FrameNC.nc_comp (Frame.nc (hc_trail_frame _)) ?_
  refine FrameNC.nc_comp (Frame.nc (hc_pierce_combo_frame dt _)) ?_
  refine FrameNC.nc_comp (Frame.nc (hc_speed_frame dt _)) ?_
  refine FrameNC.nc_comp (Frame.nc (hc_timers_frame dt _)) ?_
  refine FrameNC.nc_comp (Frame.nc (hc_oneshots_frame _)) ?_
  refine FrameNC.nc_comp (Frame.nc (hc_nuke_frame io _)) ?_
  refine FrameNC.nc_comp (Frame.nc (hc_shop_frame io _)) ?_
  refine FrameNC.nc_comp (Frame.nc (hc_keys_frame io _)) ?_
  exact hc_move_framenc L io dt s

/-- A full frame forgets to a no-state frame on the other fields. -/
theorem Frame.ns {a b : Ark} (h : Frame a b) : FrameNS a b :=
  ⟨h.2.1, h.2.2.1, h.2.2.2.1, h.2.2.2.2⟩

/-- No-state frames compose. -/
theorem FrameNS.ns_comp {a b c : Ark} (h1 : FrameNS a b) (h2 : FrameNS b c) : FrameNS a c :=
  ⟨h1.1.trans h2.1, h1.2.1.trans h2.2.1, h1.2.2.1.trans h2.2.2.1,
    h1.2.2.2.trans h2.2.2.2⟩

/-- The freeze/speed selection block is a paddle/state frame. -/
theorem ball_speed_update_frame (dt : ℚ) (s : Ark) : Frame (ball_speed_update dt s) s := by
  refine ⟨?_, ?_, ?_, ?_, ?_⟩ <;>
    simp only [ball_speed_update, apply_ite Ark.state, apply_ite Ark.paused,
      apply_ite Ark.settings, apply_ite Ark.world_size, apply_ite Ark.carriage_world,
      ite_self]

/-- The movement block is a paddle/state frame. -/
theorem ball_move_frame (O : Oracle) (dt : ℚ) (s : Ark) : Frame (ball_move O dt s) s := by
  refine ⟨?_, ?_, ?_, ?_, ?_⟩ <;>
    simp only [ball_move, apply_ite Ark.state, apply_ite Ark.paused,
      apply_ite Ark.settings, apply_ite Ark.world_size, apply_ite Ark.carriage_world,
      ite_self]

/-- Reflection is a paddle/state frame. -/
theorem reflect_ball_frame (O : Oracle) (n : Vect) (s : Ark) :
    Frame (reflect_ball O n s) s :=
  ⟨rfl, rfl, rfl, rfl, rfl⟩

/-- The wall-collision block is a paddle/state frame. -/
theorem ball_walls_frame (O : Oracle) (s : Ark) : Frame (ball_walls O s) s := by
  have h1 := fun n u => (reflect_ball_frame O n u).1
  have h2 := fun n u => (reflect_ball_frame O n u).2.1
  have h3 := fun n u => (reflect_ball_frame O n u).2.2.1
  have h4 := fun n u => (reflect_ball_frame O n u).2.2.2.1
  have h5 := fun n u => (reflect_ball_frame O n u).2.2.2.2
  refine ⟨?_, ?_, ?_, ?_, ?_⟩ <;>
    simp only [ball_walls, apply_ite Ark.state, apply_ite Ark.paused,
      apply_ite Ark.settings, apply_ite Ark.world_size, apply_ite Ark.carriage_world,
      h1, h2, h3, h4, h5, ite_self]

/-- The bottom block may change the state (to Lose) but touches neither
pause, settings, world nor paddle. -/
theorem ball_bottom_check_framens (s : Ark) : FrameNS (ball_bottom_check s) s := by
  refine ⟨?_, ?_, ?_, ?_⟩ <;>
    simp only [ball_bottom_check, apply_ite Ark.paused, apply_ite Ark.settings,
      apply_ite Ark.world_size, apply_ite Ark.carriage_world, ite_self]

/-- Ball integration touches neither pause, settings, world nor paddle. -/
theorem integrate_ball_framens (O : Oracle) (dt : ℚ) (s : Ark) :
    FrameNS (integrate_ball O dt s) s := by
  unfold integrate_ball
  exact (ball_bottom_check_framens _).ns_comp ((ball_walls_frame O _).ns.ns_comp
    ((ball_move_frame O dt _).ns.ns_comp (ball_speed_update_frame dt s).ns))

/-- The bottom block leaves the state alone or sets it to Lose. -/
theorem ball_bottom_check_state (s : Ark) :
    (ball_bottom_check s).state = s.state
      ∨ (ball_bottom_check s).state = GameState.Lose := by
  unfold ball_bottom_check
  simp only []
  split_ifs <;> first | exact Or.inl rfl | exact Or.inr rfl

/-- Ball integration leaves the state alone or sets it to Lose. -/
theorem integrate_ball_state (O : Oracle) (dt : ℚ) (s : Ark) :
    (integrate_ball O dt s).state = s.state
      ∨ (integrate_ball O dt s).state = GameState.Lose := by
  unfold integrate_ball
  have hpre : (ball_walls O (ball_move O dt (ball_speed_update dt s))).state = s.state :=
    ((ball_walls_frame O _).1.trans ((ball_move_frame O dt _).1.trans
      (ball_speed_update_frame dt s).1))
  rcases ball_bottom_check_state (ball_walls O (ball_move O dt (ball_speed_update dt s)))
    with h | h
  · exact Or.inl (h.trans hpre)
  · exact Or.inr h

/-- In a Playing state, the bottom block produces Lose exactly when the
ball has fallen below the world and the (conditionally decremented)
lives are not positive. -/
theorem ball_bottom_check_lose_iff (u : Ark) (hu : u.state = GameState.Playing) :
    ((ball_bottom_check u).state = GameState.Lose ↔
      (u.ball_pos.y > u.world_size.y + u.ball_radius ∧
        (if u.cheat_invincible then u.lives else u.lives - 1) ≤ 0)) := by
  unfold ball_bottom_check
  by_cases hf : u.ball_pos.y > u.world_size.y + u.ball_radius
  · rw [if_pos hf]
    cases hinv : u.cheat_invincible <;>
      simp only [hinv, Bool.not_true, Bool.not_false, Bool.false_eq_true,
        Bool.true_eq_false, if_true, if_false, ite_true, ite_false] <;>
      split_ifs with hl
    · exact ⟨fun _ => ⟨hf, hl⟩, fun _ => rfl⟩
    · refine ⟨fun h => ?_, fun h => absurd h.2 hl⟩
      have h2 : u.state = GameState.Lose := h
      rw [hu] at h2
      exact absurd h2 (by decide)
    · exact ⟨fun _ => ⟨hf, hl⟩, fun _ => rfl⟩
    · refine ⟨fun h => ?_, fun h => absurd h.2 hl⟩
      have h2 : u.state = GameState.Lose := h
      rw [hu] at h2
      exact absurd h2 (by decide)
  · rw [if_neg hf]
    rw [hu]
    simp [hf]

/-- Bonus application may move the paddle (EnlargePaddle) but neither
the state machine, the pause flag, the settings nor the world size. -/
theorem apply_bonus_framenc (O : Oracle) (L : Limits) (b : Bonus) (s : Ark) :
    FrameNC (apply_bonus O L b s) s := by
  cases hb : b.type <;>
    refine ⟨?_, ?_, ?_, ?_⟩ <;>
    simp [apply_bonus, hb, clamp_carriage]

/-- One bonus-integration step preserves state, pause, settings and
world size. -/
theorem integrate_bonus_one_framenc (O : Oracle) (L : Limits) (dt : ℚ) (b : Bonus)
    (s : Ark) : FrameNC (integrate_bonus_one O L dt b s).2 s := by
  have h1 := fun b u => (apply_bonus_framenc O L b u).1
  have h2 := fun b u => (apply_bonus_framenc O L b u).2.1
  have h3 := fun b u => (apply_bonus_framenc O L b u).2.2.1
  have h4 := fun b u => (apply_bonus_framenc O L b u).2.2.2
  refine ⟨?_, ?_, ?_, ?_⟩ <;>
    simp only [integrate_bonus_one, apply_ite (Prod.snd : Bonus × Ark → Ark),
      apply_ite Ark.state, apply_ite Ark.paused, apply_ite Ark.settings,
      apply_ite Ark.world_size, h1, h2, h3, h4, ite_self]

/-- The bonus loop preserves state, pause, settings and world size. -/
theorem integrate_bonuses_loop_framenc (O : Oracle) (L : Limits) (dt : ℚ)
    (bs : List Bonus) (s : Ark) : FrameNC (integrate_bonuses_loop O L dt bs s).2 s := by
  induction bs generalizing s with
  | nil => exact ⟨rfl, rfl, rfl, rfl⟩
  | cons b rest ih =>
    exact FrameNC.nc_comp (ih (integrate_bonus_one O L dt b s).2)
      (integrate_bonus_one_framenc O L dt b s)

/-- Bonus integration preserves state, pause, settings and world size. -/
theorem integrate_bonuses_framenc (O : Oracle) (L : Limits) (dt : ℚ) (s : Ark) :
    FrameNC (integrate_bonuses O L dt s) s := by
  unfold integrate_bonuses
  exact FrameNC.nc_comp ⟨rfl, rfl, rfl, rfl⟩
    (integrate_bonuses_loop_framenc O L dt s.bonuses s)

/-- Particle integration is a paddle/state frame. -/
theorem integrate_particles_frame (dt : ℚ) (s : Ark) :
    Frame (integrate_particles dt s) s :=
  ⟨rfl, rfl, rfl, rfl, rfl⟩

/-- The paddle bounce is a paddle/state frame. -/
theorem bounce_from_carriage_frame (O : Oracle) (r : Rect) (h : Vect) (s : Ark) :
    Frame (bounce_from_carriage O r h s) s :=
  ⟨rfl, rfl, rfl, rfl, rfl⟩

/-- The brick-hit response is a paddle/state frame on the game state. -/
theorem process_brick_hit_frame (O : Oracle) (n hp : Vect) (b : Brick) (s : Ark)
    (d : List Hit) : Frame (process_brick_hit O n hp b s d).2.1 s := by
  refine ⟨?_, ?_, ?_, ?_, ?_⟩ <;>
    simp only [process_brick_hit, spawn_particles, spawn_bonus_at,
      apply_ite (fun p : Brick × Ark × List Hit => p.2.1), apply_ite Ark.state,
      apply_ite Ark.paused, apply_ite Ark.settings, apply_ite Ark.world_size,
      apply_ite Ark.carriage_world, ite_self]

/-- The brick loop is a paddle/state frame on the game state. -/
theorem handle_bricks_frame (O : Oracle) (bs : List Brick) : ∀ (s : Ark) (d : List Hit),
    Frame (handle_bricks O bs s d).2.1 s := by
  induction bs with
  | nil => exact fun s d => ⟨rfl, rfl, rfl, rfl, rfl⟩
  | cons b rest ih =>
    intro s d
    unfold handle_bricks
    cases hal : b.alive
    · simp only [hal, Bool.not_false, if_true]
      exact ih s d
    · simp only [hal, Bool.not_true, Bool.false_eq_true, if_false]
      rcases hcol : collide_ball_with_rect s b.rect_world with _ | ⟨n, hit, t⟩
      · exact ih s d
      · simp only []
        by_cases hp : (!s.pierce_mode) = true
        · rw [if_pos hp]
          have hproc := Frame.frame_comp (process_brick_hit_frame O n hit b (reflect_ball O n s) d)
            (reflect_ball_frame O n s)
          split_ifs
          · exact hproc
          · exact Frame.frame_comp (ih _ _) hproc
        · rw [if_neg hp]
          have hproc := process_brick_hit_frame O n hit b s d
          split_ifs
          · exact hproc
          · exact Frame.frame_comp (ih _ _) hproc

/-- The collision handler is a paddle/state frame on the game state. -/
theorem handle_collisions_frame (O : Oracle) (s : Ark) (d : List Hit) :
    Frame (handle_collisions O s d).1 s := by
  unfold handle_collisions
  rcases hcol : collide_ball_with_rect s s.carriage_world with _ | ⟨n, hit, t⟩ <;>
    simp only []
  · exact Frame.frame_comp ⟨rfl, rfl, rfl, rfl, rfl⟩ (handle_bricks_frame O s.bricks s d)
  · refine Frame.frame_comp ⟨rfl, rfl, rfl, rfl, rfl⟩ (Frame.frame_comp (handle_bricks_frame O _ _ _) ?_)
    exact Frame.frame_comp (bounce_from_carriage_frame O _ _ _) ⟨rfl, rfl, rfl, rfl, rfl⟩

/-- The clamp helper lands in the interval when it is nonempty. -/
theorem clampf_mem {a b : ℚ} (v : ℚ) (hab : a ≤ b) :
    a ≤ clampf v a b ∧ clampf v a b ≤ b := by
  unfold clampf
  exact ⟨le_max_left a _, max_le hab (min_le_left b v)⟩

/-- The paddle invariant transports along a no-state frame as well. -/
theorem PaddleInv.of_framens {a b : Ark} (h : FrameNS a b) (hb : PaddleInv b) :
    PaddleInv a := by
  unfold PaddleInv
  rw [h.2.2.1, h.2.2.2]
  exact hb

/-- A state satisfying the paddle invariant has paddle width at most
the world width. -/
theorem PaddleInv.width_le {s : Ark} (h : PaddleInv s) :
    s.carriage_world.size.x ≤ s.world_size.x := by
  obtain ⟨h1, h2⟩ := h
  linarith

/-- Clamping establishes the paddle invariant whenever the paddle fits
in the world. -/
theorem clamp_carriage_inv (s : Ark)
    (hw : s.carriage_world.size.x ≤ s.world_size.x) :
    PaddleInv (clamp_carriage s) := by
  unfold PaddleInv clamp_carriage
  have h := clampf_mem (a := 0) (b := s.world_size.x - s.carriage_world.size.x)
    s.carriage_world.pos.x (by linarith)
  exact h

/-- The movement/width/clamp block establishes the paddle invariant. -/
theorem hc_move_inv (L : Limits) (io : Input) (dt : ℚ) (s : Ark)
    (hW : 20 ≤ s.world_size.x)
    (hcw : L.carriage_width_min ≤ s.world_size.x * 0.95)
    (hw : s.carriage_world.size.x ≤ s.world_size.x) :
    PaddleInv (hc_move L io dt s) := by
  unfold hc_move
  simp only []
  by_cases he : s.cheat_enlarge_paddle = true
  · rw [if_pos he]
    apply clamp_carriage_inv
    show clampf (s.settings.carriage_width * 1.6) L.carriage_width_min
      (s.world_size.x * 0.95) ≤ s.world_size.x
    have h := (clampf_mem (s.settings.carriage_width * 1.6) hcw).2
    linarith
  · rw [if_neg he]
    apply clamp_carriage_inv
    show max 20 s.carriage_world.size.x ≤ s.world_size.x
    exact max_le hW hw

/-- Bonus application preserves the paddle invariant (the enlarge case
re-clamps after widening). -/
theorem apply_bonus_inv (O : Oracle) (L : Limits) (b : Bonus) (s : Ark)
    (hW0 : 0 ≤ s.world_size.x)
    (hcw : L.carriage_width_min ≤ s.world_size.x * 0.95)
    (hInv : PaddleInv s) : PaddleInv (apply_bonus O L b s) := by
  cases hb : b.type
  all_goals simp only [apply_bonus, hb]
  case EnlargePaddle =>
    apply clamp_carriage_inv
    show clampf (max (s.carriage_world.size.x * 1.3) s.carriage_world.size.x)
      L.carriage_width_min (s.world_size.x * 0.95) ≤ s.world_size.x
    have h := (clampf_mem (max (s.carriage_world.size.x * 1.3) s.carriage_world.size.x) hcw).2
    linarith
  all_goals exact hInv

/-- One bonus-integration step preserves the paddle invariant. -/
theorem integrate_bonus_one_inv (O : Oracle) (L : Limits) (dt : ℚ) (b : Bonus) (s : Ark)
    (hW0 : 0 ≤ s.world_size.x)
    (hcw : L.carriage_width_min ≤ s.world_size.x * 0.95)
    (hInv : PaddleInv s) : PaddleInv (integrate_bonus_one O L dt b s).2 := by
  unfold integrate_bonus_one
  simp only []
  split_ifs
  all_goals first
    | exact hInv
    | exact apply_bonus_inv O L _ s hW0 hcw hInv

/-- The bonus loop preserves the paddle invariant. -/
theorem integrate_bonuses_loop_inv (O : Oracle) (L : Limits) (dt : ℚ)
    (bs : List Bonus) (s : Ark)
    (hW0 : 0 ≤ s.world_size.x)
    (hcw : L.carriage_width_min ≤ s.world_size.x * 0.95)
    (hInv : PaddleInv s) : PaddleInv (integrate_bonuses_loop O L dt bs s).2 := by
  induction bs generalizing s with
  | nil => exact hInv
  | cons b rest ih =>
    have hfr := integrate_bonus_one_framenc O L dt b s
    exact ih (integrate_bonus_one O L dt b s).2
      (by rw [hfr.2.2.2]; exact hW0)
      (by rw [hfr.2.2.2]; exact hcw)
      (integrate_bonus_one_inv O L dt b s hW0 hcw hInv)

/-- Bonus integration preserves the paddle invariant. -/
theorem integrate_bonuses_inv (O : Oracle) (L : Limits) (dt : ℚ) (s : Ark)
    (hW0 : 0 ≤ s.world_size.x)
    (hcw : L.carriage_width_min ≤ s.world_size.x * 0.95)
    (hInv : PaddleInv s) : PaddleInv (integrate_bonuses O L dt s) := by
  unfold integrate_bonuses
  exact PaddleInv.of_frame ⟨rfl, rfl, rfl, rfl, rfl⟩
    (integrate_bonuses_loop_inv O L dt s.bonuses s hW0 hcw hInv)

/-- The whole controls handler establishes the paddle invariant. -/
theorem handle_cheats_inv (L : Limits) (io : Input) (dt : ℚ) (u : Ark)
    (hW : 20 ≤ u.world_size.x)
    (hcw : L.carriage_width_min ≤ u.world_size.x * 0.95)
    (hw : u.carriage_world.size.x ≤ u.world_size.x) :
    PaddleInv (handle_cheats_and_controls L io dt u) := by
  unfold handle_cheats_and_controls
  refine PaddleInv.of_frame (hc_msg_frame dt _) ?_
  refine PaddleInv.of_frame (hc_trail_frame _) ?_
  refine PaddleInv.of_frame (hc_pierce_combo_frame dt _) ?_
  refine PaddleInv.of_frame (hc_speed_frame dt _) ?_
  refine PaddleInv.of_frame (hc_timers_frame dt _) ?_
  refine PaddleInv.of_frame (hc_oneshots_frame _) ?_
  refine PaddleInv.of_frame (hc_nuke_frame io _) ?_
  refine PaddleInv.of_frame (hc_shop_frame io _) ?_
  refine PaddleInv.of_frame (hc_keys_frame io _) ?_
  exact hc_move_inv L io dt u hW hcw hw

/-- Resetting establishes the paddle invariant (the paddle is centered
with a width clamped below 95 percent of the new world width). -/
theorem reset_inv (O : Oracle) (L : Limits) (st : ArkanoidSettings) (s : Ark)
    (hstW : 0 ≤ st.world_size.x)
    (hstcw : L.carriage_width_min ≤ st.world_size.x * 0.95) :
    PaddleInv (reset O L st s) := by
  have hcw := clampf_mem (a := L.carriage_width_min) (b := st.world_size.x * 0.95)
    st.carriage_width hstcw
  unfold PaddleInv reset
  constructor
  · show (0 : ℚ) ≤ (st.world_size.x -
      clampf st.carriage_width L.carriage_width_min (st.world_size.x * 0.95)) * 0.5
    have := hcw.2
    linarith
  · show (st.world_size.x -
        clampf st.carriage_width L.carriage_width_min (st.world_size.x * 0.95)) * 0.5
      ≤ st.world_size.x -
        clampf st.carriage_width L.carriage_width_min (st.world_size.x * 0.95)
    have := hcw.2
    linarith

/-- The quotient computed by a C++ truncating division of nonnegative
operands is nonnegative. -/
theorem tdiv_nonneg_of_nonneg {a b : ℤ} (ha : 0 ≤ a) (hb : 0 ≤ b) :
    0 ≤ Int.tdiv a b :=
  Int.tdiv_eq_ediv ha hb ▸ Int.ediv_nonneg ha hb

/-- C1 (amended): a purchase succeeds iff the cost is positive and the
balance covers it; on success the balance is debited by exactly the
cost and a confirmation message is queued; on an insufficient-funds
failure with positive cost the balance is unchanged and a rejection
message is queued; on a non-positive cost the call returns false and
leaves the whole state (message included) unchanged. -/
theorem try_purchase_characterization (cost : ℤ) (s : Ark) :
    ((try_purchase cost s).1 = true ↔ 0 < cost ∧ cost ≤ s.balance)
    ∧ (0 < cost → cost ≤ s.balance →
        (try_purchase cost s).2.balance = s.balance - cost ∧
        (try_purchase cost s).2.shop_message = "Purchased for $" ++ toString cost ++ "!" ∧
        (try_purchase cost s).2.shop_message_timer = s.shop_message_duration)
    ∧ (0 < cost → s.balance < cost →
        (try_purchase cost s).2.balance = s.balance ∧
        (try_purchase cost s).2.shop_message = "Not enough $" ∧
        (try_purchase cost s).2.shop_message_timer = s.shop_message_duration)
    ∧ (cost ≤ 0 → (try_purchase cost s).2 = s) := by
  unfold try_purchase
  split_ifs with h0 hb
  · exact ⟨⟨fun h => absurd h (by simp), fun h => absurd h0 (by omega)⟩,
      fun h1 _ => absurd h1 (by omega), fun h1 _ => absurd h1 (by omega), fun _ => rfl⟩
  · exact ⟨⟨fun _ => by omega, fun _ => rfl⟩, fun _ _ => ⟨rfl, rfl, rfl⟩,
      fun _ h2 => absurd hb (by omega), fun h => absurd h h0⟩
  · exact ⟨⟨fun h => absurd h (by simp), fun h => absurd hb (by omega)⟩,
      fun _ h2 => absurd h2 (by omega), fun _ _ => ⟨rfl, rfl, rfl⟩, fun h => absurd h h0⟩

/-- C1 witness: the two purchase scenarios of the spec, on a balance-20
and a balance-5 state. -/
theorem try_purchase_characterization_witness :
    ((try_purchase 10 { mkArk baseSettings with balance := 20 }).1 = true
      ∧ (try_purchase 10 { mkArk baseSettings with balance := 20 }).2.balance = 10)
    ∧ ((try_purchase 10 { mkArk baseSettings with balance := 5 }).1 = false
      ∧ (try_purchase 10 { mkArk baseSettings with balance := 5 }).2.balance = 5) := by
  have h1 := try_purchase_characterization 10 { mkArk baseSettings with balance := 20 }
  have h2 := try_purchase_characterization 10 { mkArk baseSettings with balance := 5 }
  refine ⟨⟨h1.1.mpr ⟨by norm_num, by decide⟩, ?_⟩, ⟨?_, ?_⟩⟩
  · have := (h1.2.1 (by norm_num) (by decide)).1
    rw [this]; decide
  · by_contra h
    have := h2.1.mp (by revert h; decide)
    revert this; decide
  · have := (h2.2.2.1 (by norm_num) (by decide)).1
    rw [this]

/-- C1 counterexample: the claim as stated is false, because a
non-positive-cost failure queues NO rejection message: `try_purchase`
with cost 0 on a balance-5 state with an empty shop message returns
false and leaves the state unchanged, the shop message still empty. -/
theorem try_purchase_counterexample :
    (try_purchase 0 { mkArk baseSettings with balance := 5 }).1 = false
    ∧ (try_purchase 0 { mkArk baseSettings with balance := 5 }).2
        = { mkArk baseSettings with balance := 5 }
    ∧ (try_purchase 0 { mkArk baseSettings with balance := 5 }).2.shop_message = "" := by
  exact ⟨rfl, rfl, rfl⟩

/-- C2: whenever the score exceeds the (nonnegative) conversion mark
and the score-per-dollar ratio is positive, the conversion adds exactly
the truncated quotient of (score − mark) by scorePerDollar to the
balance (truncation = floor, both operands being nonnegative) and
advances the mark by exactly dollars * scorePerDollar, so the
remainder carries over. -/
theorem grant_money_conversion (s : Ark)
    (hacc : 0 ≤ s.money_from_score_accumulator)
    (hlt : s.money_from_score_accumulator < s.score)
    (hspd : 0 < s.score_per_dollar) :
    (grant_money_from_score s).balance =
      s.balance + Int.tdiv (s.score - s.money_from_score_accumulator) s.score_per_dollar
    ∧ (grant_money_from_score s).money_from_score_accumulator =
      s.money_from_score_accumulator +
        Int.tdiv (s.score - s.money_from_score_accumulator) s.score_per_dollar
          * s.score_per_dollar := by
  have hq : 0 ≤ Int.tdiv (s.score - s.money_from_score_accumulator) s.score_per_dollar :=
    tdiv_nonneg_of_nonneg (by omega) (by omega)
  unfold grant_money_from_score add_money
  rw [if_neg (not_lt.mpr hacc), if_neg (not_le.mpr hlt)]
  by_cases hqpos : Int.tdiv (s.score - s.money_from_score_accumulator) s.score_per_dollar > 0
  · rw [if_pos hqpos, if_neg (not_le.mpr hqpos)]
    exact ⟨rfl, rfl⟩
  · rw [if_neg hqpos]
    constructor
    · omega
    · have h0 : Int.tdiv (s.score - s.money_from_score_accumulator) s.score_per_dollar = 0 := by
        omega
      rw [h0]
      ring

/-- C2 witness: the scenario of the spec — score 250, mark 0,
scorePerDollar 100: the balance increases by exactly 2 and the mark
advances to 200. -/
theorem grant_money_conversion_witness :
    (grant_money_from_score { mkArk baseSettings with score := 250 }).balance = 2
    ∧ (grant_money_from_score
        { mkArk baseSettings with score := 250 }).money_from_score_accumulator = 200 := by
  have h := grant_money_conversion { mkArk baseSettings with score := 250 }
    (by decide) (by decide) (by decide)
  exact ⟨by rw [h.1]; decide, by rw [h.2]; decide⟩

/-- The level build does not touch the spendable balance. -/
theorem build_level_balance (O : Oracle) (L : Limits) (st : ArkanoidSettings) (s : Ark) :
    (build_level O L st s).balance = s.balance := rfl

/-- The level build does not touch the lifetime-earned total. -/
theorem build_level_total_money (O : Oracle) (L : Limits) (st : ArkanoidSettings) (s : Ark) :
    (build_level O L st s).total_money = s.total_money := rfl

/-- The level build does not touch the conversion mark. -/
theorem build_level_acc (O : Oracle) (L : Limits) (st : ArkanoidSettings) (s : Ark) :
    (build_level O L st s).money_from_score_accumulator =
      s.money_from_score_accumulator := rfl

/-- The level build does not touch the score. -/
theorem build_level_score (O : Oracle) (L : Limits) (st : ArkanoidSettings) (s : Ark) :
    (build_level O L st s).score = s.score := rfl

/-- C10: `reset` zeroes the spendable balance, the score and the
score-to-currency conversion mark, but leaves the lifetime-earned
`total_money` unchanged; consequently, whenever the incoming lifetime
total is nonnegative (as it is for any state reachable from a fresh
instance), the balance ≤ total_money inequality holds after the reset. -/
theorem reset_money (O : Oracle) (L : Limits) (st : ArkanoidSettings) (s : Ark) :
    (reset O L st s).balance = 0
    ∧ (reset O L st s).total_money = s.total_money
    ∧ (reset O L st s).money_from_score_accumulator = 0
    ∧ (reset O L st s).score = 0
    ∧ (0 ≤ s.total_money → (reset O L st s).balance ≤ (reset O L st s).total_money) := by
  simp only [reset, build_level_balance, build_level_total_money, build_level_acc,
    build_level_score]
  exact ⟨trivial, trivial, trivial, trivial, fun h => h⟩

/-- C10 witness for the conditional conjunct, at the initial state. -/
theorem reset_money_witness :
    (reset baseOracle baseLimits baseSettings (mkArk baseSettings)).balance
      ≤ (reset baseOracle baseLimits baseSettings (mkArk baseSettings)).total_money := by
  exact (reset_money baseOracle baseLimits baseSettings (mkArk baseSettings)).2.2.2.2
    (by decide)

/-- C3: response to a ball-brick collision with an alive brick.  If the
remaining hit-points exceed 1, they decrease by exactly 1, the brick
stays alive, and the score increases by floor(brickScore/3) *
scoreMultiplier (the `/` below is floor division, which agrees with the
C++ truncating division because the brick score is nonnegative); if the
hit-points equal 1, the brick becomes not-alive and the score increases
by brickScore * comboMultiplier * scoreMultiplier. -/
theorem brick_hit_scoring (O : Oracle) (n hit_pos : Vect) (b : Brick) (s : Ark)
    (d : List Hit) (halive : b.alive = true) (hsc : 0 ≤ b.score) :
    (1 < b.hit_points →
      ((process_brick_hit O n hit_pos b s d).1.hit_points = b.hit_points - 1
      ∧ (process_brick_hit O n hit_pos b s d).1.alive = true
      ∧ (process_brick_hit O n hit_pos b s d).2.1.score =
          s.score + b.score / 3 * s.score_mult_value))
    ∧ (b.hit_points = 1 →
      ((process_brick_hit O n hit_pos b s d).1.alive = false
      ∧ (process_brick_hit O n hit_pos b s d).2.1.score =
          s.score + b.score * s.combo_mult * s.score_mult_value)) := by
  have ht : Int.tdiv b.score 3 = b.score / 3 := Int.tdiv_eq_ediv hsc (by norm_num)
  constructor
  · intro h
    unfold process_brick_hit
    rw [if_pos h]
    exact ⟨rfl, halive, by rw [← ht]; exact rfl⟩
  · intro h
    unfold process_brick_hit
    rw [if_neg (by omega : ¬ 1 < b.hit_points)]
    refine ⟨rfl, ?_⟩
    simp only []
    split_ifs <;> rfl

/-- C3 witness: a 2-hit-point brick of score 10 is damaged to 1 HP and
awards 3 points; a 1-hit-point brick of score 10 with combo 1 is
destroyed and awards 10 points. -/
theorem brick_hit_scoring_witness :
    ((process_brick_hit baseOracle ⟨0, -1⟩ ⟨0, 0⟩
        { rect_world := ⟨⟨100, 300⟩, ⟨50, 20⟩⟩, alive := true, score := 10, bonus := false
          color := IM_COL32 140 180 230 255, hit_points := 2
          base_color := IM_COL32 140 180 230 255 }
        (mkArk baseSettings) []).1.hit_points = 1
    ∧ (process_brick_hit baseOracle ⟨0, -1⟩ ⟨0, 0⟩
        { rect_world := ⟨⟨100, 300⟩, ⟨50, 20⟩⟩, alive := true, score := 10, bonus := false
          color := IM_COL32 140 180 230 255, hit_points := 2
          base_color := IM_COL32 140 180 230 255 }
        (mkArk baseSettings) []).2.1.score = 3)
    ∧ ((process_brick_hit baseOracle ⟨0, -1⟩ ⟨0, 0⟩
        { rect_world := ⟨⟨100, 300⟩, ⟨50, 20⟩⟩, alive := true, score := 10, bonus := false
          color := IM_COL32 140 180 230 255, hit_points := 1
          base_color := IM_COL32 140 180 230 255 }
        (mkArk baseSettings) []).1.alive = false
    ∧ (process_brick_hit baseOracle ⟨0, -1⟩ ⟨0, 0⟩
        { rect_world := ⟨⟨100, 300⟩, ⟨50, 20⟩⟩, alive := true, score := 10, bonus := false
          color := IM_COL32 140 180 230 255, hit_points := 1
          base_color := IM_COL32 140 180 230 255 }
        (mkArk baseSettings) []).2.1.score = 10) := by
  have h2 := brick_hit_scoring baseOracle ⟨0, -1⟩ ⟨0, 0⟩
    { rect_world := ⟨⟨100, 300⟩, ⟨50, 20⟩⟩, alive := true, score := 10, bonus := false
      color := IM_COL32 140 180 230 255, hit_points := 2
      base_color := IM_COL32 140 180 230 255 }
    (mkArk baseSettings) [] rfl (by norm_num)
  have h1 := brick_hit_scoring baseOracle ⟨0, -1⟩ ⟨0, 0⟩
    { rect_world := ⟨⟨100, 300⟩, ⟨50, 20⟩⟩, alive := true, score := 10, bonus := false
      color := IM_COL32 140 180 230 255, hit_points := 1
      base_color := IM_COL32 140 180 230 255 }
    (mkArk baseSettings) [] rfl (by norm_num)
  obtain ⟨ha, hb, hc⟩ := h2.1 (by norm_num)
  obtain ⟨hd, he⟩ := h1.2 rfl
  refine ⟨⟨by rw [ha]; decide, by rw [hc]; decide⟩, hd, by rw [he]; decide⟩

/-- C5: life loss handling when the ball falls below the world (the
bottom block of `integrate_ball`): lives decrement iff invincibility is
inactive; combo and pierce are cleared unconditionally; if the
resulting lives are at most 0 the state becomes Lose, otherwise the
state is untouched (stays Playing) and the ball is repositioned just
above the paddle center with velocity set to the fixed diagonal
direction scaled by the TARGET speed, not the current speed. -/
theorem ball_loss_handling (s : Ark)
    (hy : s.ball_pos.y > s.world_size.y + s.ball_radius) :
    ((ball_bottom_check s).lives =
        (if s.cheat_invincible then s.lives else s.lives - 1))
    ∧ (ball_bottom_check s).combo_mult = 1
    ∧ (ball_bottom_check s).combo_timer = 0
    ∧ (ball_bottom_check s).pierce_mode = false
    ∧ (ball_bottom_check s).pierce_timer = 0
    ∧ ((if s.cheat_invincible then s.lives else s.lives - 1) ≤ 0 →
        (ball_bottom_check s).state = GameState.Lose)
    ∧ (¬ (if s.cheat_invincible then s.lives else s.lives - 1) ≤ 0 →
        ((ball_bottom_check s).state = s.state
        ∧ (ball_bottom_check s).ball_pos =
            ⟨(rect_center s.carriage_world).x, s.carriage_world.pos.y - s.ball_radius - 1⟩
        ∧ (ball_bottom_check s).ball_vel =
            (⟨0.7071067, -0.7071067⟩ : Vect) * s.ball_speed_target)) := by
  unfold ball_bottom_check
  rw [if_pos hy]
  cases hinv : s.cheat_invincible <;>
    simp only [hinv, Bool.not_true, Bool.not_false, Bool.false_eq_true, Bool.true_eq_false,
      if_true, if_false, ite_true, ite_false] <;>
    split_ifs with hl <;>
    refine ⟨rfl, rfl, rfl, rfl, rfl, fun h => ?_, fun h => ?_⟩ <;>
    first
      | rfl
      | exact absurd hl h
      | exact absurd h hl
      | exact ⟨rfl, rfl, rfl⟩

/-- C5 witness: the spec scenario — ball at y = worldHeight + radius +
1 with one life and no invincibility: after the bottom check, lives = 0
and the state is Lose. -/
theorem ball_loss_handling_witness :
    (ball_bottom_check
        { mkArk baseSettings with ball_pos := ⟨400, 611⟩, lives := 1 }).lives = 0
    ∧ (ball_bottom_check
        { mkArk baseSettings with ball_pos := ⟨400, 611⟩, lives := 1 }).state
        = GameState.Lose := by
  have h := ball_loss_handling { mkArk baseSettings with ball_pos := ⟨400, 611⟩, lives := 1 }
    (by norm_num [mkArk, baseSettings])
  exact ⟨by rw [h.1]; decide, h.2.2.2.2.2.1 (by decide)⟩

/-- C9: consuming a slow-motion bonus multiplies the target ball speed
by 0.4 and arms the buff with a 5 second timer; when the buff expires
in the update preamble, only the active flag and the timer are cleared
and the target speed keeps its reduced value (it is not restored). -/
theorem slowmo_pickup_and_expiry (O : Oracle) (L : Limits) (b : Bonus) (s : Ark)
    (hb : b.type = BonusType.SlowMo) (elapsed : ℚ) (t : Ark)
    (hmode : t.slowmo_mode = true) (hexp : t.slowmo_timer - elapsed ≤ 0) :
    (apply_bonus O L b s).ball_speed_target = s.ball_speed_target * 0.4
    ∧ (apply_bonus O L b s).slowmo_mode = true
    ∧ (apply_bonus O L b s).slowmo_timer = 5
    ∧ (slowmo_step elapsed t).2.slowmo_mode = false
    ∧ (slowmo_step elapsed t).2.slowmo_timer = 0
    ∧ (slowmo_step elapsed t).2.ball_speed_target = t.ball_speed_target
    ∧ (slowmo_step elapsed t).1 = elapsed * t.slowmo_factor := by
  have h1 : apply_bonus O L b s =
      { s with
        slowmo_mode := true
        slowmo_timer := 5
        ball_speed_target := s.ball_speed_target * 0.4 } := by
    unfold apply_bonus
    rw [hb]
  have h2 : slowmo_step elapsed t =
      (elapsed * t.slowmo_factor, { t with slowmo_timer := 0, slowmo_mode := false }) := by
    unfold slowmo_step
    rw [if_pos hmode, if_pos hexp]
  rw [h1, h2]
  exact ⟨rfl, rfl, rfl, rfl, rfl, rfl, rfl⟩

/-- C9 witness: picking up a slow-motion bonus at target speed 150
leaves target 60; a later expiry frame clears the flag and timer but
keeps whatever target the state has. -/
theorem slowmo_pickup_and_expiry_witness :
    (apply_bonus baseOracle baseLimits
        { rect_world := ⟨⟨0, 0⟩, ⟨10, 10⟩⟩, type := BonusType.SlowMo, vel := ⟨0, 80⟩
          alive := true, color := IM_COL32 180 140 255 255, points := 0, glow := 0 }
        (mkArk baseSettings)).ball_speed_target = 60
    ∧ (slowmo_step 2 { mkArk baseSettings with
          slowmo_mode := true, slowmo_timer := 1, ball_speed_target := 60 }).2.slowmo_mode
        = false
    ∧ (slowmo_step 2 { mkArk baseSettings with
          slowmo_mode := true, slowmo_timer := 1,
          ball_speed_target := 60 }).2.ball_speed_target = 60 := by
  have h := slowmo_pickup_and_expiry baseOracle baseLimits
    { rect_world := ⟨⟨0, 0⟩, ⟨10, 10⟩⟩, type := BonusType.SlowMo, vel := ⟨0, 80⟩
      alive := true, color := IM_COL32 180 140 255 255, points := 0, glow := 0 }
    (mkArk baseSettings) rfl 2
    { mkArk baseSettings with
      slowmo_mode := true, slowmo_timer := 1, ball_speed_target := 60 }
    rfl (by norm_num)
  exact ⟨by rw [h.1]; norm_num [mkArk, baseSettings], h.2.2.2.1,
    by rw [h.2.2.2.2.2.1]⟩

/-- Componentwise unfolding of vector addition. -/
theorem Vect.add_def (a b : Vect) : a + b = ⟨a.x + b.x, a.y + b.y⟩ := rfl

/-- Componentwise unfolding of vector subtraction. -/
theorem Vect.sub_def (a b : Vect) : a - b = ⟨a.x - b.x, a.y - b.y⟩ := rfl

/-- Componentwise unfolding of scalar scaling. -/
theorem Vect.smul_def (v : Vect) (k : ℚ) : v * k = ⟨v.x * k, v.y * k⟩ := rfl

/-- C4 (amended): reflection across a unit normal preserves the squared
magnitude of the velocity — hence the speed — PROVIDED the
minimum-component floor does not fire, i.e. both components of the
reflected vector already have magnitude at least 0.15 * currentSpeed.
(The normalization at the start of `integrate_ball` re-establishes
magnitude = currentSpeed each frame; the counterexample shows the
invariant can fail at the end of a frame in which the floor fired.) -/
theorem reflect_preserves_speed_sq (O : Oracle) (n : Vect) (s : Ark)
    (hn : n.x * n.x + n.y * n.y = 1)
    (hx : 0.15 * s.ball_speed_cur ≤
      |s.ball_vel.x - n.x * (2 * (s.ball_vel.x * n.x + s.ball_vel.y * n.y))|)
    (hy : 0.15 * s.ball_speed_cur ≤
      |s.ball_vel.y - n.y * (2 * (s.ball_vel.x * n.x + s.ball_vel.y * n.y))|) :
    (reflect_ball O n s).ball_vel.lenSq = s.ball_vel.lenSq := by
  simp only [reflect_ball, Vect.sub_def, Vect.smul_def]
  rw [if_neg (not_lt.mpr hx), if_neg (not_lt.mpr hy)]
  simp only [Vect.lenSq]
  linear_combination
    (4 * (s.ball_vel.x * n.x + s.ball_vel.y * n.y)
      * (s.ball_vel.x * n.x + s.ball_vel.y * n.y)) * hn

/-- C4 witness: reflecting the unit-speed velocity (3/5, -4/5) off the
right wall normal (-1, 0) keeps the squared magnitude equal to 1 (no
component falls below the 0.15-of-speed floor). -/
theorem reflect_preserves_speed_sq_witness :
    (reflect_ball baseOracle ⟨-1, 0⟩
        { mkArk baseSettings with ball_vel := ⟨3/5, -4/5⟩, ball_speed_cur := 1 }).ball_vel.lenSq
      = 1 := by
  have h := reflect_preserves_speed_sq baseOracle ⟨-1, 0⟩
    { mkArk baseSettings with ball_vel := ⟨3/5, -4/5⟩, ball_speed_cur := 1 }
    (by norm_num) (by norm_num [abs_of_nonneg]) (by norm_num [abs_of_nonneg])
  rw [h]
  norm_num [Vect.lenSq]

/-- C4 counterexample: the ball-speed invariant does NOT hold within
floating tolerance on every frame with a reflection.  With current
speed 1 and unit velocity (15/113, -112/113), reflecting off the right
wall normal (-1, 0) triggers the minimum-component floor (15/113 <
0.15) and yields a velocity of squared magnitude 5132521/5107600,
which exceeds (the square of) the speed by more than 0.4 percent. -/
theorem reflect_speed_counterexample :
    (reflect_ball baseOracle ⟨-1, 0⟩
        { mkArk baseSettings with ball_vel := ⟨15/113, -112/113⟩, ball_speed_cur := 1 }).ball_vel.lenSq
      = 5132521/5107600
    ∧ ({ mkArk baseSettings with ball_vel := ⟨15/113, -112/113⟩, ball_speed_cur := 1 } : Ark).ball_vel.lenSq
      = 1
    ∧ (5132521/5107600 : ℚ) > 1 + 1/250 := by
  refine ⟨?_, by norm_num [Vect.lenSq], by norm_num⟩
  simp only [reflect_ball, Vect.sub_def, Vect.smul_def, Vect.lenSq]
  norm_num [sgn, abs_of_nonneg]

/-- Particle spawning does not touch the bonus list. -/
theorem spawn_particles_bonuses (O : Oracle) (p : Vect) (c : Color) (k : ℕ) (u : Ark) :
    (spawn_particles O p c k u).bonuses = u.bonuses := rfl

/-- C7 (amended): destroying a bonus-flagged brick through a ball
collision spawns exactly one bonus, centered on the brick, whose type
is obtained by applying the (injective) 7-case switch to the draw of
the position-derived seeded stream — a deterministic function of the
brick center — with the 7-member draw set {SpeedUp, EnlargePaddle,
ExtraLife, Pierce, Points, Magnet, ScoreMult}.  (Bricks destroyed by
the nuke-row cheat spawn no bonus; see the counterexample.) -/
theorem bonus_spawn_on_destruction (O : Oracle) (n hit_pos : Vect) (b : Brick) (s : Ark)
    (d : List Hit) (hhp : b.hit_points ≤ 1) (hbonus : b.bonus = true) :
    ((process_brick_hit O n hit_pos b s d).2.1.bonuses =
      s.bonuses ++ (spawn_bonus_at (rect_center b.rect_world)
        (bonus_case (O.bonus_choice ((rect_center b.rect_world).x * 1000
          + (rect_center b.rect_world).y))) { s with bonuses := [] }).bonuses)
    ∧ (∀ (t : BonusType),
        (spawn_bonus_at (rect_center b.rect_world) t { s with bonuses := [] }).bonuses.length
          = 1)
    ∧ (∀ (t : BonusType),
        ∀ bn ∈ (spawn_bonus_at (rect_center b.rect_world) t { s with bonuses := [] }).bonuses,
          rect_center bn.rect_world = rect_center b.rect_world ∧ bn.type = t)
    ∧ Function.Injective bonus_case
    ∧ (∀ c : Fin 7, bonus_case c ∈ [BonusType.SpeedUp, BonusType.EnlargePaddle,
        BonusType.ExtraLife, BonusType.Pierce, BonusType.Points, BonusType.Magnet,
        BonusType.ScoreMult]) := by
  refine ⟨?_, ?_, ?_, ?_, ?_⟩
  · unfold process_brick_hit
    rw [if_neg (by omega : ¬ 1 < b.hit_points)]
    simp only []
    rw [if_pos hbonus]
    split_ifs <;> rfl
  · intro t
    rfl
  · intro t bn hbn
    simp only [spawn_bonus_at, List.nil_append, List.mem_singleton] at hbn
    subst hbn
    refine ⟨?_, rfl⟩
    simp only [rect_center, make_rect_xywh, Vect.mk.injEq]
    constructor <;> ring
  · intro a b hab
    fin_cases a <;> fin_cases b <;> first | rfl | (exfalso; exact absurd hab (by decide))
  · intro c
    fin_cases c <;> decide

/-- C7 witness: destroying a concrete alive 1-hit-point bonus-flagged
brick through the collision handler leaves exactly one spawned bonus. -/
theorem bonus_spawn_on_destruction_witness :
    (process_brick_hit baseOracle ⟨0, -1⟩ ⟨0, 0⟩
        { rect_world := ⟨⟨100, 300⟩, ⟨50, 20⟩⟩, alive := true, score := 10, bonus := true
          color := IM_COL32 255 200 80 255, hit_points := 1
          base_color := IM_COL32 255 200 80 255 }
        (mkArk baseSettings) []).2.1.bonuses.length = 1 := by
  have h := bonus_spawn_on_destruction baseOracle ⟨0, -1⟩ ⟨0, 0⟩
    { rect_world := ⟨⟨100, 300⟩, ⟨50, 20⟩⟩, alive := true, score := 10, bonus := true
      color := IM_COL32 255 200 80 255, hit_points := 1
      base_color := IM_COL32 255 200 80 255 }
    (mkArk baseSettings) [] (by decide) rfl
  rw [h.1, List.length_append, h.2.1]
  rfl

set_option maxHeartbeats 4000000 in
/-- C7 counterexample: the claim quantifies over EVERY destruction of a
bonus-flagged brick, but a bonus-flagged brick destroyed by the
nuke-row cheat (key N) spawns no bonus: after a full update frame on a
state whose only brick is alive and bonus-flagged and aligned with the
ball, the brick is dead and the bonus list is still empty. -/
theorem nuke_destroys_bonus_brick_without_spawn :
    (update baseOracle baseLimits { noInput with keyN := true } 1 nukeState).1.bonuses = []
    ∧ (update baseOracle baseLimits { noInput with keyN := true } 1
        nukeState).1.bricks.map (fun b => b.alive) = [false]
    ∧ nukeState.bricks.map (fun b => b.bonus) = [true]
    ∧ nukeState.bricks.map (fun b => b.alive) = [true] := by
  refine ⟨?_, ?_, rfl, rfl⟩ <;>
    norm_num [update, world_to_screen_scale, slowmo_step, grant_money_from_score,
      handle_cheats_and_controls, hc_move, clamp_carriage, clampf, hc_keys, hc_shop,
      try_purchase, hc_nuke, hc_nuke_loop, hc_nuke_one, hc_oneshots, hc_timers, hc_speed,
      hc_pierce_combo, hc_trail, hc_msg, launch_ball_if_needed, integrate_ball,
      ball_speed_update, ball_move, Vect.length, Vect.lenSq, ball_walls, reflect_ball,
      ball_bottom_check, integrate_bonuses, integrate_bonuses_loop, integrate_particles,
      handle_collisions, collide_ball_with_rect, handle_bricks, add_debug_hit, any_alive,
      mkArk, baseSettings, baseOracle, baseLimits, noInput, nukeState, Vect.add_def,
      Vect.sub_def, Vect.smul_def, sgn, rect_center, make_rect_xywh, Int.tmod]

/-- C8: the paddle never leaves the world horizontally.  For every
input snapshot and frame time, one `update` maps a state whose paddle
satisfies the in-world invariant (and whose world is at least 20 wide,
with the configured minimum paddle width at most 95 percent of the
world width, for both the live world and the stored settings used on
restart) to a state whose paddle again satisfies the invariant: the
left edge stays within [0, worldWidth − paddleWidth]. -/
theorem paddle_stays_in_world (O : Oracle) (L : Limits) (io : Input) (elapsed : ℚ)
    (s : Ark)
    (hInv : PaddleInv s)
    (hW : 20 ≤ s.world_size.x)
    (hcw : L.carriage_width_min ≤ s.world_size.x * 0.95)
    (hsW : 0 ≤ s.settings.world_size.x)
    (hscw : L.carriage_width_min ≤ s.settings.world_size.x * 0.95) :
    PaddleInv (update O L io elapsed s).1 := by
  unfold update
  simp only []
  have hf2 : Frame (slowmo_step elapsed
      { s with screen_scale := world_to_screen_scale io s }).2 s :=
    Frame.frame_comp (slowmo_step_frame elapsed _) ⟨rfl, rfl, rfl, rfl, rfl⟩
  set s2 := (slowmo_step elapsed
    { s with screen_scale := world_to_screen_scale io s }).2 with hs2
  have hInv2 : PaddleInv s2 := PaddleInv.of_frame hf2 hInv
  have hW2 : 20 ≤ s2.world_size.x := by rw [hf2.2.2.2.1]; exact hW
  have hcw2 : L.carriage_width_min ≤ s2.world_size.x * 0.95 := by
    rw [hf2.2.2.2.1]; exact hcw
  have hg := grant_money_frame s2
  set dt := (slowmo_step elapsed
    { s with screen_scale := world_to_screen_scale io s }).1 with hdt
  set s4 := handle_cheats_and_controls L io dt (grant_money_from_score s2) with hs4
  have hInv4 : PaddleInv s4 := by
    apply handle_cheats_inv
    · rw [hg.2.2.2.1]; exact hW2
    · rw [hg.2.2.2.1]; exact hcw2
    · exact (PaddleInv.of_frame hg hInv2).width_le
  have hfr4 : FrameNC s4 s2 :=
    FrameNC.nc_comp (handle_cheats_framenc L io dt _) (Frame.nc hg)
  have hW4 : 0 ≤ s4.world_size.x := by rw [hfr4.2.2.2]; linarith
  have hcw4 : L.carriage_width_min ≤ s4.world_size.x * 0.95 := by
    rw [hfr4.2.2.2]; exact hcw2
  have hball := integrate_ball_framens O dt (launch_ball_if_needed s4)
  have hInv5 : PaddleInv (integrate_ball O dt (launch_ball_if_needed s4)) :=
    PaddleInv.of_framens hball hInv4
  have hInv6 : PaddleInv (integrate_bonuses O L dt
      (integrate_ball O dt (launch_ball_if_needed s4))) := by
    apply integrate_bonuses_inv
    · rw [hball.2.2.1]; exact hW4
    · rw [hball.2.2.1]; exact hcw4
    · exact hInv5
  have hInv7 : PaddleInv (integrate_particles dt (integrate_bonuses O L dt
      (integrate_ball O dt (launch_ball_if_needed s4)))) :=
    PaddleInv.of_frame (integrate_particles_frame dt _) hInv6
  have hInvP : PaddleInv (handle_collisions O (integrate_particles dt
      (integrate_bonuses O L dt (integrate_ball O dt (launch_ball_if_needed s4)))) []).1 :=
    PaddleInv.of_frame (handle_collisions_frame O _ _) hInv7
  split_ifs with hstate hR hp halive
  · apply reset_inv
    · rw [hf2.2.2.1]; exact hsW
    · rw [hf2.2.2.1]; exact hscw
  · exact hInv2
  · exact hInv4
  · exact hInvP
  · exact hInvP

/-- C8 witness: one update frame on the initial state (alive paddle at
the left edge, default 800-wide world, reasonable limits) keeps the
paddle inside the world. -/
theorem paddle_stays_in_world_witness :
    PaddleInv (update baseOracle baseLimits noInput 1 (mkArk baseSettings)).1 := by
  apply paddle_stays_in_world
  · exact ⟨by norm_num [mkArk, baseSettings, PaddleInv], by norm_num [mkArk, baseSettings]⟩
  · norm_num [mkArk, baseSettings]
  · norm_num [mkArk, baseSettings, baseLimits]
  · norm_num [mkArk, baseSettings]
  · norm_num [mkArk, baseSettings, baseLimits]

/-- The slow-motion preamble leaves all gameplay fields other than the
slow-motion flag and timer unchanged. -/
theorem slowmo_step_gameplay (e : ℚ) (s : Ark) :
    (slowmo_step e s).2.bricks = s.bricks
    ∧ (slowmo_step e s).2.score = s.score
    ∧ (slowmo_step e s).2.lives = s.lives
    ∧ (slowmo_step e s).2.balance = s.balance
    ∧ (slowmo_step e s).2.total_money = s.total_money
    ∧ (slowmo_step e s).2.ball_pos = s.ball_pos
    ∧ (slowmo_step e s).2.ball_vel = s.ball_vel
    ∧ (slowmo_step e s).2.combo_mult = s.combo_mult
    ∧ (slowmo_step e s).2.pierce_mode = s.pierce_mode
    ∧ (slowmo_step e s).2.bonuses = s.bonuses
    ∧ (slowmo_step e s).2.particles = s.particles
    ∧ (slowmo_step e s).2.destroyed_bricks_count = s.destroyed_bricks_count
    ∧ (slowmo_step e s).2.ball_speed_target = s.ball_speed_target := by
  refine ⟨?_, ?_, ?_, ?_, ?_, ?_, ?_, ?_, ?_, ?_, ?_, ?_, ?_⟩ <;>
    simp only [slowmo_step, apply_ite (Prod.snd : ℚ × Ark → Ark), apply_ite Ark.bricks,
      apply_ite Ark.score, apply_ite Ark.lives, apply_ite Ark.balance,
      apply_ite Ark.total_money, apply_ite Ark.ball_pos, apply_ite Ark.ball_vel,
      apply_ite Ark.combo_mult, apply_ite Ark.pierce_mode, apply_ite Ark.bonuses,
      apply_ite Ark.particles, apply_ite Ark.destroyed_bricks_count,
      apply_ite Ark.ball_speed_target, ite_self]

/-- The sticky-launch placeholder is the identity. -/
theorem launch_ball_if_needed_id (s : Ark) : launch_ball_if_needed s = s := rfl

/-- C6 (amended): Win and Lose are terminal for gameplay — outside the
Playing state an update either performs the requested restart or
changes nothing except the (still ticking) slow-motion countdown; at
the end of a non-paused Playing update the state is Win exactly when no
brick is alive; a non-paused Playing update ends in Lose exactly when
the ball-integration stage set Lose (with some brick still alive,
else Win overrides); and the integration stage sets Lose exactly when
the ball fell below the world and the conditionally decremented lives
are not positive. -/
theorem win_lose_terminal (O : Oracle) (L : Limits) (io : Input) (elapsed : ℚ) (s : Ark) :
    (s.state ≠ GameState.Playing → io.keyR = false →
      ((update O L io elapsed s).1.state = s.state
      ∧ (update O L io elapsed s).1.bricks = s.bricks
      ∧ (update O L io elapsed s).1.score = s.score
      ∧ (update O L io elapsed s).1.lives = s.lives
      ∧ (update O L io elapsed s).1.balance = s.balance
      ∧ (update O L io elapsed s).1.total_money = s.total_money
      ∧ (update O L io elapsed s).1.ball_pos = s.ball_pos
      ∧ (update O L io elapsed s).1.ball_vel = s.ball_vel
      ∧ (update O L io elapsed s).1.combo_mult = s.combo_mult
      ∧ (update O L io elapsed s).1.pierce_mode = s.pierce_mode
      ∧ (update O L io elapsed s).1.bonuses = s.bonuses
      ∧ (update O L io elapsed s).1.particles = s.particles
      ∧ (update O L io elapsed s).1.carriage_world = s.carriage_world
      ∧ (update O L io elapsed s).1.destroyed_bricks_count = s.destroyed_bricks_count
      ∧ (update O L io elapsed s).1.ball_speed_target = s.ball_speed_target))
    ∧ (s.state ≠ GameState.Playing → io.keyR = true →
      (update O L io elapsed s).1 = reset O L s.settings
        (slowmo_step elapsed { s with screen_scale := world_to_screen_scale io s }).2)
    ∧ (s.state = GameState.Playing → s.paused = false →
      ((update O L io elapsed s).1.state = GameState.Win ↔
        any_alive (update O L io elapsed s).1.bricks = false))
    ∧ (s.state = GameState.Playing → s.paused = true →
      (update O L io elapsed s).1.state = GameState.Playing)
    ∧ (s.state = GameState.Playing → s.paused = false →
      ((update O L io elapsed s).1.state = GameState.Lose ↔
        (any_alive (update O L io elapsed s).1.bricks = true ∧
          (integrate_ball O
            (slowmo_step elapsed { s with screen_scale := world_to_screen_scale io s }).1
            (launch_ball_if_needed (handle_cheats_and_controls L io
              (slowmo_step elapsed { s with screen_scale := world_to_screen_scale io s }).1
              (grant_money_from_score
                (slowmo_step elapsed
                  { s with screen_scale := world_to_screen_scale io s }).2)))).state
            = GameState.Lose)))
    ∧ (∀ (u : Ark) (dtq : ℚ), u.state = GameState.Playing →
      ((integrate_ball O dtq u).state = GameState.Lose ↔
        ((ball_walls O (ball_move O dtq (ball_speed_update dtq u))).ball_pos.y >
            (ball_walls O (ball_move O dtq (ball_speed_update dtq u))).world_size.y +
            (ball_walls O (ball_move O dtq (ball_speed_update dtq u))).ball_radius ∧
          (if (ball_walls O (ball_move O dtq (ball_speed_update dtq u))).cheat_invincible
            then (ball_walls O (ball_move O dtq (ball_speed_update dtq u))).lives
            else (ball_walls O (ball_move O dtq (ball_speed_update dtq u))).lives - 1)
            ≤ 0))) := by
  have hf2 : Frame (slowmo_step elapsed
      { s with screen_scale := world_to_screen_scale io s }).2 s :=
    Frame.frame_comp (slowmo_step_frame elapsed _) ⟨rfl, rfl, rfl, rfl, rfl⟩
  have hgp := slowmo_step_gameplay elapsed { s with screen_scale := world_to_screen_scale io s }
  unfold update
  simp only []
  set s2 := (slowmo_step elapsed
    { s with screen_scale := world_to_screen_scale io s }).2 with hs2
  set dt := (slowmo_step elapsed
    { s with screen_scale := world_to_screen_scale io s }).1 with hdt
  set s4 := handle_cheats_and_controls L io dt (grant_money_from_score s2) with hs4
  have hfr4 : FrameNC s4 s2 :=
    FrameNC.nc_comp (handle_cheats_framenc L io dt _) (Frame.nc (grant_money_frame s2))
  refine ⟨?_, ?_, ?_, ?_, ?_, ?_⟩
  · intro hstate hR
    rw [if_pos (show s2.state ≠ GameState.Playing by rw [hf2.1]; exact hstate),
      if_neg (show ¬ io.keyR = true by rw [hR]; exact Bool.false_ne_true)]
    exact ⟨hf2.1, hgp.1, hgp.2.1, hgp.2.2.1, hgp.2.2.2.1, hgp.2.2.2.2.1,
      hgp.2.2.2.2.2.1, hgp.2.2.2.2.2.2.1, hgp.2.2.2.2.2.2.2.1,
      hgp.2.2.2.2.2.2.2.2.1, hgp.2.2.2.2.2.2.2.2.2.1, hgp.2.2.2.2.2.2.2.2.2.2.1,
      hf2.2.2.2.2, hgp.2.2.2.2.2.2.2.2.2.2.2.1, hgp.2.2.2.2.2.2.2.2.2.2.2.2⟩
  · intro hstate hR
    rw [if_pos (show s2.state ≠ GameState.Playing by rw [hf2.1]; exact hstate),
      if_pos hR, hf2.2.2.1]
  · intro hPlay hp
    rw [if_neg (show ¬ s2.state ≠ GameState.Playing by
        rw [hf2.1]; exact not_not_intro hPlay),
      if_neg (show ¬ s4.paused = true by
        rw [hfr4.2.1, hf2.2.1, hp]; exact Bool.false_ne_true)]
    have hS4 : s4.state = GameState.Playing := by rw [hfr4.1, hf2.1]; exact hPlay
    have hmid := integrate_ball_state O dt (launch_ball_if_needed s4)
    have hP : (handle_collisions O (integrate_particles dt (integrate_bonuses O L dt
        (integrate_ball O dt (launch_ball_if_needed s4)))) []).1.state
        = (integrate_ball O dt (launch_ball_if_needed s4)).state :=
      ((handle_collisions_frame O _ _).1.trans ((integrate_particles_frame dt _).1.trans
        (integrate_bonuses_framenc O L dt _).1))
    by_cases halive : any_alive (handle_collisions O (integrate_particles dt
        (integrate_bonuses O L dt (integrate_ball O dt (launch_ball_if_needed s4)))) []).1.bricks
        = true
    · rw [if_pos halive]
      constructor
      · intro hwin
        rcases hmid with h | h
        · rw [hP, h, launch_ball_if_needed_id, hS4] at hwin
          exact absurd hwin (by decide)
        · rw [hP, h] at hwin
          exact absurd hwin (by decide)
      · intro hfalse
        rw [halive] at hfalse
        exact absurd hfalse (by decide)
    · rw [if_neg halive]
      refine ⟨fun _ => ?_, fun _ => rfl⟩
      have : any_alive ({ (handle_collisions O (integrate_particles dt
          (integrate_bonuses O L dt (integrate_ball O dt
            (launch_ball_if_needed s4)))) []).1 with state := GameState.Win }).bricks
          = any_alive (handle_collisions O (integrate_particles dt
          (integrate_bonuses O L dt (integrate_ball O dt
            (launch_ball_if_needed s4)))) []).1.bricks := rfl
      rw [this]
      exact Bool.not_eq_true _ |>.mp halive
  · intro hPlay hp
    rw [if_neg (show ¬ s2.state ≠ GameState.Playing by
        rw [hf2.1]; exact not_not_intro hPlay),
      if_pos (show s4.paused = true by rw [hfr4.2.1, hf2.2.1]; exact hp)]
    rw [hfr4.1, hf2.1]
    exact hPlay
  · intro hPlay hp
    rw [if_neg (show ¬ s2.state ≠ GameState.Playing by
        rw [hf2.1]; exact not_not_intro hPlay),
      if_neg (show ¬ s4.paused = true by
        rw [hfr4.2.1, hf2.2.1, hp]; exact Bool.false_ne_true)]
    have hP : (handle_collisions O (integrate_particles dt (integrate_bonuses O L dt
        (integrate_ball O dt (launch_ball_if_needed s4)))) []).1.state
        = (integrate_ball O dt (launch_ball_if_needed s4)).state :=
      ((handle_collisions_frame O _ _).1.trans ((integrate_particles_frame dt _).1.trans
        (integrate_bonuses_framenc O L dt _).1))
    by_cases halive : any_alive (handle_collisions O (integrate_particles dt
        (integrate_bonuses O L dt (integrate_ball O dt (launch_ball_if_needed s4)))) []).1.bricks
        = true
    · rw [if_pos halive]
      rw [hP]
      exact ⟨fun h => ⟨halive, h⟩, fun h => h.2⟩
    · rw [if_neg halive]
      constructor
      · intro hwin
        have h2 : GameState.Win = GameState.Lose := hwin
        exact absurd h2 (by decide)
      · intro h
        have : any_alive ({ (handle_collisions O (integrate_particles dt
            (integrate_bonuses O L dt (integrate_ball O dt
              (launch_ball_if_needed s4)))) []).1 with state := GameState.Win }).bricks
            = any_alive (handle_collisions O (integrate_particles dt
            (integrate_bonuses O L dt (integrate_ball O dt
              (launch_ball_if_needed s4)))) []).1.bricks := rfl
        rw [this] at h
        exact absurd h.1 halive
  · intro u dtq hu
    have hpre : (ball_walls O (ball_move O dtq (ball_speed_update dtq u))).state = u.state :=
      ((ball_walls_frame O _).1.trans ((ball_move_frame O dtq _).1.trans
        (ball_speed_update_frame dtq u).1))
    exact ball_bottom_check_lose_iff _ (hpre.trans hu)

/-- C6 witness: one update on a Lose state without a restart request
leaves the state Lose and the lives (and the rest of the gameplay
state) unchanged. -/
theorem win_lose_terminal_witness :
    (update baseOracle baseLimits noInput 1
        { mkArk baseSettings with state := GameState.Lose }).1.state = GameState.Lose
    ∧ (update baseOracle baseLimits noInput 1
        { mkArk baseSettings with state := GameState.Lose }).1.lives = 3 := by
  have h := win_lose_terminal baseOracle baseLimits noInput 1
    { mkArk baseSettings with state := GameState.Lose }
  have h2 := h.1 (by decide) rfl
  exact ⟨h2.1.trans rfl, h2.2.2.2.1.trans rfl⟩

/-- C6 counterexample: Win and Lose are NOT fully inert — the
slow-motion block of `update` runs before the state check, so in a Lose
state with an active slow-motion buff an update without any restart
request still decrements the slow-motion timer (3 becomes 2), changing
gameplay state without a restart. -/
theorem terminal_slowmo_tick_counterexample :
    (update baseOracle baseLimits noInput 1
        { mkArk baseSettings with state := GameState.Lose, slowmo_mode := true, slowmo_timer := 3 }).1.slowmo_timer = 2
    ∧ (update baseOracle baseLimits noInput 1
        { mkArk baseSettings with state := GameState.Lose, slowmo_mode := true, slowmo_timer := 3 }).1.state = GameState.Lose
    ∧ ({ mkArk baseSettings with state := GameState.Lose, slowmo_mode := true, slowmo_timer := 3 } : Ark).slowmo_timer = 3 := by
  refine ⟨?_, ?_, rfl⟩ <;>
    norm_num [update, slowmo_step, world_to_screen_scale, mkArk, baseSettings, noInput] <;>
    simp

end Arkanoid
